import Mathlib

/-!
Shallow embedding of the ECDSA verification engine of the note-crypto
repository (src/ecdsa/curve.ts, the ECDSA module and its math module), with
proofs about the embedded definitions.

Conventions of the embedding:
* JavaScript `bigint` is embedded as `Int`.  The JS `%` operator is truncating
  remainder, i.e. `Int.tmod`; JS bigint `/` truncates towards zero, i.e.
  `Int.tdiv`; `**` is `^`.
* Byte arrays (`Uint8Array`) are embedded as `List Nat`, each entry one byte.
* A JS function that can `throw` is embedded with result type
  `Except String α`, the error string being the thrown message.
* `while` loops are embedded as structurally recursive functions with an
  explicit fuel argument so that every definition is executable by `decide`.
  The fuel passed by each wrapper is proved (or chosen) large enough that the
  `fuel = 0` branch is unreachable on the inputs the theorems talk about; that
  branch returns a distinguished "fuel exhausted" error.
-/

deriving instance DecidableEq for Except

/-- Embedding of `euclideanMod(x, y)` from the math module: JS computes
`r = x % y` (truncating remainder) and adds `y` when `r` is negative. -/
def euclideanMod (x y : Int) : Int :=
  let r := x.tmod y
  if r < 0 then r + y else r

/-- Embedding of the `while (remainder !== 0)` loop of `inverseMod`.  The JS
loop state is `(dividend, divisor, s1, s2)`; `remainder`, `quotient` and `s3`
are recomputed from it at the head of each iteration exactly as in the source.
Returns the final `(divisor, s2)` pair, i.e. the gcd and the Bézout
coefficient of `a`. -/
def egcdLoop : Nat → Int → Int → Int → Int → Int × Int
  | 0, _, divisor, _, s2 => (divisor, s2)
  | fuel+1, dividend, divisor, s1, s2 =>
    let remainder := dividend.tmod divisor
    let quotient := dividend.tdiv divisor
    let s3 := s1 - quotient * s2
    if remainder = 0 then (divisor, s2)
    else egcdLoop fuel divisor remainder s2 s3

/-- Embedding of `inverseMod(a, n)` from the math module: normalizes `n` to be
positive and `a` into `[0, n)` when negative, runs the extended Euclidean
loop, throws when the resulting gcd is not 1, and otherwise returns the
Bézout coefficient normalized into `[0, n)`.  The divisor strictly decreases
every iteration, so fuel `n + 1` is never exhausted (for `n ≠ 0`). -/
def inverseMod (a n : Int) : Except String Int :=
  let n1 := if n < 0 then n * (-1) else n
  let a1 := if a < 0 then euclideanMod a n1 else a
  let gs := egcdLoop (n1.toNat + 1) a1 n1 1 0
  if gs.1 ≠ 1 then Except.error "a and n is not relatively prime"
  else if gs.2 < 0 then Except.ok (gs.2 + n1) else Except.ok gs.2

/-- Embedding of the `while (y > 0)` loop of `powmod`: the state is
`(res, x, y)`; an odd `y` multiplies `res` by `x` mod `p`, then `y` is halved
and `x` squared mod `p`.  The exponent is a nonnegative JS bigint at every
call site, embedded as `Nat`. -/
def powmodLoop : Nat → Int → Int → Nat → Int → Int
  | 0, res, _, _, _ => res
  | fuel+1, res, x, y, p =>
    if y = 0 then res
    else
      powmodLoop fuel (if y % 2 = 1 then euclideanMod (res * x) p else res)
        (euclideanMod (x * x) p) (y / 2) p

/-- Embedding of `powmod(x, y, p)` from the math module: initializes `res = 1`
and `x = x % p` (JS truncating `%`), then runs the square-and-multiply loop.
The loop runs once per bit of `y`, so fuel `y + 1` is never exhausted. -/
def powmod (x y p : Int) : Int :=
  powmodLoop (y.toNat + 1) 1 (x.tmod p) y.toNat p

/-- Embedding of the `while (q % 2 === 0)` factoring loop of `tonelliShanks`:
splits its argument as `q * 2^s` with `q` odd, starting from the given `s`.
The loop runs at most `log2` many times, so fuel `p - 1` is never
exhausted. -/
def factorQS : Nat → Int → Int → Int × Int
  | 0, q, s => (q, s)
  | fuel+1, q, s => if q.tmod 2 = 0 then factorQS fuel (q.tdiv 2) (s + 1) else (q, s)

/-- Embedding of the `while (powmod(z, (p-1)/2, p) !== p-1) z++` search of
`tonelliShanks` for a quadratic non-residue.  The JS loop is unbounded; for a
prime `p` a non-residue below `p` exists, so fuel `p` is never exhausted. -/
def zSearch : Nat → Int → Int → Except String Int
  | 0, _, _ => Except.error "fuel exhausted"
  | fuel+1, z, p =>
    if powmod z ((p - 1).tdiv 2) p ≠ p - 1 then zSearch fuel (z + 1) p
    else Except.ok z

/-- Embedding of the inner `while (i <= m)` search of `tonelliShanks` for the
least exponent `i` with `t^(2^i) = 1 (mod p)`: reaching `i = m` throws, a hit
breaks out returning `i`, otherwise `i` is incremented.  The JS loop body
can only run while `i <= m`, so fuel `m + 1` is never exhausted; the guard
`i ≤ m` failing at entry (only possible for `m ≤ 0`, which never occurs)
corresponds to JS continuing into `2n ** (m - i - 1n)` with a negative
exponent, a thrown `RangeError`. -/
def iSearch : Nat → Int → Int → Int → Int → Except String Int
  | 0, _, _, _, _ => Except.error "fuel exhausted"
  | fuel+1, i, m, t, p =>
    if i ≤ m then
      if i = m then Except.error "Cannot find square root"
      else if powmod t ((2 : Int) ^ i.toNat) p = 1 then Except.ok i
      else iSearch fuel (i + 1) m t p
    else Except.error "negative exponent"

/-- Embedding of the main `while (true)` loop of `tonelliShanks` with state
`(r, t, c, m)`: returns `r` once `t = 1`, otherwise finds the least `i` with
`t^(2^i) = 1`, sets `b = c^(2^(m-i-1))` and updates
`m ← i`, `c ← b²`, `t ← t·b²`, `r ← r·b` (all mod `p`).  `m` strictly
decreases every iteration, so fuel `m + 2` is never exhausted. -/
def tsLoop : Nat → Int → Int → Int → Int → Int → Except String Int
  | 0, _, _, _, _, _ => Except.error "fuel exhausted"
  | fuel+1, r, t, c, m, p =>
    if t = 1 then Except.ok r
    else
      match iSearch (m.toNat + 1) 1 m t p with
      | Except.error e => Except.error e
      | Except.ok i =>
        let b := powmod c ((2 : Int) ^ (m - i - 1).toNat) p
        tsLoop fuel (euclideanMod (r * b) p) (euclideanMod (t * powmod b 2 p) p)
          (powmod b 2 p) i p

/-- Embedding of `tonelliShanks(n, p)` from the math module: the `p ≡ 3 (mod 4)`
fast path returns `n^((p+1)/4) mod p` unconditionally; otherwise Euler's
criterion rejects non-residues, `p - 1` is split as `q·2^s`, a non-residue
`z` is searched, and the main loop runs from
`r = n^((q+1)/2)`, `t = n^q`, `c = z^q`, `m = s`. -/
def tonelliShanks (n p : Int) : Except String Int :=
  if p.tmod 4 = 3 then Except.ok (powmod n ((p + 1).tdiv 4) p)
  else if powmod n ((p - 1).tdiv 2) p = p - 1 then Except.error "Cannot find square root"
  else
    let qs := factorQS (p - 1).toNat (p - 1) 0
    match zSearch p.toNat 2 p with
    | Except.error e => Except.error e
    | Except.ok z =>
      tsLoop (qs.2.toNat + 2) (powmod n ((qs.1 + 1).tdiv 2) p) (powmod n qs.1 p)
        (powmod z qs.1 p) qs.2 p

/-- Embedding of the `ECDSAPoint` class of curve.ts: an affine point. -/
structure ECDSAPoint where
  x : Int
  y : Int
deriving DecidableEq, Repr

/-- Embedding of the `JacobianPoint` class of curve.ts. -/
structure JacobianPoint where
  x : Int
  y : Int
  z : Int
deriving DecidableEq, Repr

/-- Embedding of `JacobianPoint.isAtInfinity`: the exact comparison with the
canonical triple `(0, 1, 0)` used by the source. -/
def JacobianPoint.isAtInfinity (pt : JacobianPoint) : Prop :=
  pt.x = 0 ∧ pt.y = 1 ∧ pt.z = 0

instance (pt : JacobianPoint) : Decidable pt.isAtInfinity := by
  unfold JacobianPoint.isAtInfinity
  infer_instance

/-- Embedding of `pointAtInfinity()` from curve.ts. -/
def pointAtInfinity : JacobianPoint := ⟨0, 1, 0⟩

/-- Embedding of the `ECDSANamedCurve` class fields.  The source constructor
takes `gx, gy` and stores `g = new ECDSAPoint(gx, gy)`. -/
structure ECDSANamedCurve where
  p : Int
  a : Int
  b : Int
  g : ECDSAPoint
  n : Int
  cofactor : Int
  size : Nat
  objectIdentifier : String
deriving DecidableEq, Repr

/-- Embedding of `ECDSANamedCurve.doubleJacobian`. -/
def ECDSANamedCurve.doubleJacobian (c : ECDSANamedCurve) (point : JacobianPoint) :
    JacobianPoint :=
  if point.isAtInfinity then point
  else if point.y = 0 then pointAtInfinity
  else
    let s := euclideanMod (4 * point.x * point.y ^ 2) c.p
    let m := euclideanMod (3 * point.x ^ 2 + c.a * point.z ^ 4) c.p
    let resultx := euclideanMod (m ^ 2 - 2 * s) c.p
    { x := resultx
      y := euclideanMod (m * (s - resultx) - 8 * point.y ^ 4) c.p
      z := euclideanMod (2 * point.y * point.z) c.p }

/-- Embedding of `ECDSANamedCurve.addJacobian`. -/
def ECDSANamedCurve.addJacobian (c : ECDSANamedCurve) (point1 point2 : JacobianPoint) :
    JacobianPoint :=
  if point1.isAtInfinity then point2
  else if point2.isAtInfinity then point1
  else
    let point1zz := point1.z ^ 2
    let point2zz := point2.z ^ 2
    let u1 := euclideanMod (point1.x * point2zz) c.p
    let u2 := euclideanMod (point2.x * point1zz) c.p
    let s1 := euclideanMod (point1.y * point2zz * point2.z) c.p
    let s2 := euclideanMod (point2.y * point1zz * point1.z) c.p
    if u1 = u2 then
      if s1 ≠ s2 then pointAtInfinity
      else c.doubleJacobian point1
    else
      let h := u2 - u1
      let r := s2 - s1
      let point3x := euclideanMod (r ^ 2 - h ^ 3 - 2 * u1 * h ^ 2) c.p
      { x := point3x
        y := euclideanMod (r * (u1 * h ^ 2 - point3x) - s1 * h ^ 3) c.p
        z := euclideanMod (h * point1.z * point2.z) c.p }

/-- Embedding of `ECDSANamedCurve.toAffine`: `null` (the JS identity result)
becomes `Except.ok none`; the `inverseMod` call can throw, which propagates. -/
def ECDSANamedCurve.toAffine (c : ECDSANamedCurve) (point : JacobianPoint) :
    Except String (Option ECDSAPoint) :=
  if point.isAtInfinity then Except.ok none
  else
    match inverseMod point.z c.p with
    | Except.error e => Except.error e
    | Except.ok inverseZ =>
      Except.ok (some { x := euclideanMod (point.x * inverseZ ^ 2) c.p
                        y := euclideanMod (point.y * inverseZ ^ 2 * inverseZ) c.p })

/-- Embedding of `ECDSANamedCurve.fromAffine`. -/
def ECDSANamedCurve.fromAffine (_c : ECDSANamedCurve) (point : ECDSAPoint) : JacobianPoint :=
  ⟨point.x, point.y, 1⟩

/-- Embedding of `ECDSANamedCurve.add` (affine wrapper). -/
def ECDSANamedCurve.add (c : ECDSANamedCurve) (point1 point2 : ECDSAPoint) :
    Except String (Option ECDSAPoint) :=
  c.toAffine (c.addJacobian (c.fromAffine point1) (c.fromAffine point2))

/-- Number of binary digits of `n` (with the convention of JS
`n.toString(2).length` for `n = 0`, handled by the wrapper `bitLen`).
Structured with fuel so it is executable; fuel `n` suffices for `n ≥ 1`. -/
def bitLenAux : Nat → Nat → Nat
  | 0, _ => 0
  | fuel+1, n => if n = 0 then 0 else bitLenAux fuel (n / 2) + 1

/-- Embedding of `k.toString(2).length` of the source's `multiply` for a
nonnegative `k`: the number of binary digits, which is 1 for `k = 0`. -/
def bitLen (k : Nat) : Nat := if k = 0 then 1 else bitLenAux k k

/-- Embedding of the double-and-add `for` loop of `ECDSANamedCurve.multiply`:
the JS code extracts bit `i` of `k` from the big-endian `bigIntBytes(k)`
array, which for `k ≥ 0` is the `i`-th least significant bit; scanning bits
least-significant first is the same as halving `k` each iteration.  The loop
runs `bitLen k` times (the fuel). -/
def multiplyLoop (c : ECDSANamedCurve) : Nat → Nat → JacobianPoint → JacobianPoint →
    JacobianPoint
  | 0, _, res, _ => res
  | fuel+1, k, res, temp =>
    multiplyLoop c fuel (k / 2) (if k % 2 = 1 then c.addJacobian res temp else res)
      (c.doubleJacobian temp)

/-- Embedding of `ECDSANamedCurve.multiply(k, point)`.  Every call site of the
source passes a nonnegative scalar (`u1`, `u2`, `curve.n`), embedded via
`k.toNat`. -/
def ECDSANamedCurve.multiply (c : ECDSANamedCurve) (k : Int) (point : ECDSAPoint) :
    Except String (Option ECDSAPoint) :=
  c.toAffine (multiplyLoop c (bitLen k.toNat) k.toNat pointAtInfinity ⟨point.x, point.y, 1⟩)

/-- Embedding of `ECDSANamedCurve.isOnCurve`: for cofactor ≠ 1 first check
`n·P` is the identity (propagating any exception of `multiply`), then test the
curve equation `y² ≡ x³ + ax + b (mod p)`. -/
def ECDSANamedCurve.isOnCurve (c : ECDSANamedCurve) (point : ECDSAPoint) :
    Except String Bool :=
  if c.cofactor ≠ 1 then
    match c.multiply c.n point with
    | Except.error e => Except.error e
    | Except.ok (some _) => Except.ok false
    | Except.ok none =>
      Except.ok (decide (euclideanMod (point.y ^ 2) c.p =
        euclideanMod (point.x ^ 3 + c.a * point.x + c.b) c.p))
  else
    Except.ok (decide (euclideanMod (point.y ^ 2) c.p =
      euclideanMod (point.x ^ 3 + c.a * point.x + c.b) c.p))

/-- Embedding of the `ECDSAPublicKey` class: curve tag plus affine
coordinates; the constructor performs no validation. -/
structure ECDSAPublicKey where
  curve : ECDSANamedCurve
  x : Int
  y : Int
deriving DecidableEq, Repr

/-- Embedding of the `ECDSASignature` class fields. -/
structure ECDSASignature where
  r : Int
  s : Int
deriving DecidableEq, Repr

/-- Embedding of the `ECDSASignature` constructor, which throws a `TypeError`
when `r < 1` or `s < 1`. -/
def ECDSASignature.create (r s : Int) : Except String ECDSASignature :=
  if r < 1 ∨ s < 1 then Except.error "Invalid signature" else Except.ok ⟨r, s⟩

/-- Embedding of `bigIntFromBytes` of the external binary utility: big-endian
interpretation of a byte sequence as a nonnegative integer. -/
def bigIntFromBytes (bytes : List Nat) : Int :=
  Int.ofNat (bytes.foldl (fun acc b => acc * 256 + b) 0)

/-- Big-endian fixed-width byte encoding of a natural number: the value
written by `bytes.set(bigIntBytes(x), offset)` into a zero-initialized slot of
`len` bytes, for `x < 256^len`. -/
def natToBytesBE : Nat → Nat → List Nat
  | 0, _ => []
  | len+1, x => natToBytesBE len (x / 256) ++ [x % 256]

/-- Embedding of `ECDSAPublicKey.encodeSEC1Uncompressed`:
`0x04 ‖ bigEndian(x, size) ‖ bigEndian(y, size)`.  A coordinate whose
minimal byte representation does not fit in `size` bytes makes the JS
`Uint8Array.set` throw a `RangeError`, embedded as the error branch. -/
def ECDSAPublicKey.encodeSEC1Uncompressed (pk : ECDSAPublicKey) : Except String (List Nat) :=
  if pk.x < 0 ∨ (256 : Int) ^ pk.curve.size ≤ pk.x ∨
      pk.y < 0 ∨ (256 : Int) ^ pk.curve.size ≤ pk.y then
    Except.error "RangeError"
  else
    Except.ok (4 :: (natToBytesBE pk.curve.size pk.x.toNat ++ natToBytesBE pk.curve.size pk.y.toNat))

/-- Embedding of `ECDSAPublicKey.encodeSEC1Compressed`:
`(0x02 if y even else 0x03) ‖ bigEndian(x, size)`. -/
def ECDSAPublicKey.encodeSEC1Compressed (pk : ECDSAPublicKey) : Except String (List Nat) :=
  if pk.x < 0 ∨ (256 : Int) ^ pk.curve.size ≤ pk.x then Except.error "RangeError"
  else
    Except.ok ((if pk.y.tmod 2 = 0 then 2 else 3) :: natToBytesBE pk.curve.size pk.x.toNat)

/-- Embedding of `decodeSEC1PublicKey(curve, bytes)`: dispatches on the first
byte (`0x04` uncompressed, `0x02`/`0x03` compressed with point decompression
through `tonelliShanks` and parity selection), throwing on any other prefix or
a length mismatch.  The uncompressed branch performs no on-curve check. -/
def decodeSEC1PublicKey (curve : ECDSANamedCurve) (bytes : List Nat) :
    Except String ECDSAPublicKey :=
  if bytes.length < 1 then Except.error "Invalid public key"
  else if bytes.headD 0 = 4 then
    if bytes.length ≠ curve.size * 2 + 1 then Except.error "Invalid public key"
    else
      Except.ok { curve := curve
                  x := bigIntFromBytes ((bytes.drop 1).take curve.size)
                  y := bigIntFromBytes (bytes.drop (curve.size + 1)) }
  else if bytes.headD 0 = 2 then
    if bytes.length ≠ curve.size + 1 then Except.error "Invalid public key"
    else
      let x := bigIntFromBytes (bytes.drop 1)
      let y2 := euclideanMod (x ^ 3 + curve.a * x + curve.b) curve.p
      match tonelliShanks y2 curve.p with
      | Except.error e => Except.error e
      | Except.ok y =>
        if y.tmod 2 = 0 then Except.ok ⟨curve, x, y⟩
        else Except.ok ⟨curve, x, curve.p - y⟩
  else if bytes.headD 0 = 3 then
    if bytes.length ≠ curve.size + 1 then Except.error "Invalid public key"
    else
      let x := bigIntFromBytes (bytes.drop 1)
      let y2 := euclideanMod (x ^ 3 + curve.a * x + curve.b) curve.p
      match tonelliShanks y2 curve.p with
      | Except.error e => Except.error e
      | Except.ok y =>
        if y.tmod 2 = 1 then Except.ok ⟨curve, x, y⟩
        else Except.ok ⟨curve, x, curve.p - y⟩
  else Except.error "Unknown encoding format"

/-- Embedding of `decodeIEEEP1363ECDSASignature(curve, bytes)`: requires the
exact length `2·curve.size`, splits at the midpoint into `r` and `s` (each
big-endian), then runs the `ECDSASignature` constructor. -/
def decodeIEEEP1363ECDSASignature (curve : ECDSANamedCurve) (bytes : List Nat) :
    Except String ECDSASignature :=
  if bytes.length ≠ curve.size * 2 then
    Except.error "Failed to decode signature: Invalid signature size"
  else
    ECDSASignature.create (bigIntFromBytes (bytes.take curve.size))
      (bigIntFromBytes (bytes.drop curve.size))

/-- Embedding of `verifyECDSASignature(publicKey, hash, signature)`: the
linear sequence of checks of the source.  A JS `return false` is
`Except.ok false`; an uncaught exception (`inverseMod` inside `u1`/`u2`
computation or inside `toAffine`) propagates as `Except.error` — the source
has no try/catch.  Note the source computes `inverseMod(signature.s, n)`
twice, once for `u1` and once for `u2`. -/
def verifyECDSASignature (publicKey : ECDSAPublicKey) (hash : List Nat)
    (signature : ECDSASignature) : Except String Bool :=
  let q : ECDSAPoint := ⟨publicKey.x, publicKey.y⟩
  match publicKey.curve.isOnCurve q with
  | Except.error e => Except.error e
  | Except.ok false => Except.ok false
  | Except.ok true =>
    match publicKey.curve.multiply publicKey.curve.n q with
    | Except.error e => Except.error e
    | Except.ok (some _) => Except.ok false
    | Except.ok none =>
      let e := hash.take publicKey.curve.size
      match inverseMod signature.s publicKey.curve.n with
      | Except.error er => Except.error er
      | Except.ok w1 =>
        let u1 := euclideanMod (bigIntFromBytes e * w1) publicKey.curve.n
        match publicKey.curve.multiply u1 publicKey.curve.g with
        | Except.error er => Except.error er
        | Except.ok none => Except.ok false
        | Except.ok (some u1G) =>
          match inverseMod signature.s publicKey.curve.n with
          | Except.error er => Except.error er
          | Except.ok w2 =>
            let u2 := euclideanMod (signature.r * w2) publicKey.curve.n
            match publicKey.curve.multiply u2 q with
            | Except.error er => Except.error er
            | Except.ok none => Except.ok false
            | Except.ok (some u2Q) =>
              match publicKey.curve.add u1G u2Q with
              | Except.error er => Except.error er
              | Except.ok none => Except.ok false
              | Except.ok (some coord1) =>
                Except.ok (decide (euclideanMod signature.r publicKey.curve.n = coord1.x))

/-- Registry curve secp192k1 from the SECG curve table. -/
def secp192k1 : ECDSANamedCurve :=
  { p := 0xfffffffffffffffffffffffffffffffffffffffeffffee37
    a := 0x000000000000000000000000000000000000000000000000
    b := 0x000000000000000000000000000000000000000000000003
    g := ⟨0xdb4ff10ec057e9ae26b07d0280b7f4341da5d1b1eae06c7d,
          0x9b2f2f6d9c5628a7844163d015be86344082aa88d95e2f9d⟩
    n := 0xfffffffffffffffffffffffe26f2fc170f69466a74defd8d
    cofactor := 1
    size := 24
    objectIdentifier := "1.3.132.0.31" }

/-- Registry curve secp192r1 from the SECG curve table. -/
def secp192r1 : ECDSANamedCurve :=
  { p := 0xfffffffffffffffffffffffffffffffeffffffffffffffff
    a := 0xfffffffffffffffffffffffffffffffefffffffffffffffc
    b := 0x64210519e59c80e70fa7e9ab72243049feb8deecc146b9b1
    g := ⟨0x188da80eb03090f67cbf20eb43a18800f4ff0afd82ff1012,
          0x07192b95ffc8da78631011ed6b24cdd573f977a11e794811⟩
    n := 0xffffffffffffffffffffffff99def836146bc9b1b4d22831
    cofactor := 1
    size := 24
    objectIdentifier := "1.2.840.10045.3.1.1" }

/-- Registry curve secp224k1 from the SECG curve table. -/
def secp224k1 : ECDSANamedCurve :=
  { p := 0xfffffffffffffffffffffffffffffffffffffffffffffffeffffe56d
    a := 0x00000000000000000000000000000000000000000000000000000000
    b := 0x00000000000000000000000000000000000000000000000000000005
    g := ⟨0xa1455b334df099df30fc28a169a467e9e47075a90f7e650eb6b7a45c,
          0x7e089fed7fba344282cafbd6f7e319f7c0b0bd59e2ca4bdb556d61a5⟩
    n := 0x10000000000000000000000000001dce8d2ec6184caf0a971769fb1f7
    cofactor := 1
    size := 28
    objectIdentifier := "1.3.132.0.32" }

/-- Registry curve secp224r1 from the SECG curve table. -/
def secp224r1 : ECDSANamedCurve :=
  { p := 0xffffffffffffffffffffffffffffffff000000000000000000000001
    a := 0xfffffffffffffffffffffffffffffffefffffffffffffffffffffffe
    b := 0xb4050a850c04b3abf54132565044b0b7d7bfd8ba270b39432355ffb4
    g := ⟨0xb70e0cbd6bb4bf7f321390b94a03c1d356c21122343280d6115c1d21,
          0xbd376388b5f723fb4c22dfe6cd4375a05a07476444d5819985007e34⟩
    n := 0xffffffffffffffffffffffffffff16a2e0b8f03e13dd29455c5c2a3d
    cofactor := 1
    size := 28
    objectIdentifier := "1.3.132.0.33" }

/-- Registry curve secp256k1 from the SECG curve table. -/
def secp256k1 : ECDSANamedCurve :=
  { p := 0xfffffffffffffffffffffffffffffffffffffffffffffffffffffffefffffc2f
    a := 0x0000000000000000000000000000000000000000000000000000000000000000
    b := 0x0000000000000000000000000000000000000000000000000000000000000007
    g := ⟨0x79be667ef9dcbbac55a06295ce870b07029bfcdb2dce28d959f2815b16f81798,
          0x483ada7726a3c4655da4fbfc0e1108a8fd17b448a68554199c47d08ffb10d4b8⟩
    n := 0xfffffffffffffffffffffffffffffffebaaedce6af48a03bbfd25e8cd0364141
    cofactor := 1
    size := 32
    objectIdentifier := "1.3.132.0.10" }

/-- Registry curve secp256r1 from the SECG curve table. -/
def secp256r1 : ECDSANamedCurve :=
  { p := 0xffffffff00000001000000000000000000000000ffffffffffffffffffffffff
    a := 0xffffffff00000001000000000000000000000000fffffffffffffffffffffffc
    b := 0x5ac635d8aa3a93e7b3ebbd55769886bc651d06b0cc53b0f63bce3c3e27d2604b
    g := ⟨0x6b17d1f2e12c4247f8bce6e563a440f277037d812deb33a0f4a13945d898c296,
          0x4fe342e2fe1a7f9b8ee7eb4a7c0f9e162bce33576b315ececbb6406837bf51f5⟩
    n := 0xffffffff00000000ffffffffffffffffbce6faada7179e84f3b9cac2fc632551
    cofactor := 1
    size := 32
    objectIdentifier := "1.2.840.10045.3.1.7" }

/-- Registry curve secp384r1 from the SECG curve table. -/
def secp384r1 : ECDSANamedCurve :=
  { p := 0xfffffffffffffffffffffffffffffffffffffffffffffffffffffffffffffffeffffffff0000000000000000ffffffff
    a := 0xfffffffffffffffffffffffffffffffffffffffffffffffffffffffffffffffeffffffff0000000000000000fffffffc
    b := 0xb3312fa7e23ee7e4988e056be3f82d19181d9c6efe8141120314088f5013875ac656398d8a2ed19d2a85c8edd3ec2aef
    g := ⟨0xaa87ca22be8b05378eb1c71ef320ad746e1d3b628ba79b9859f741e082542a385502f25dbf55296c3a545e3872760ab7,
          0x3617de4a96262c6f5d9e98bf9292dc29f8f41dbd289a147ce9da3113b5f0b8c00a60b1ce1d7e819d7a431d7c90ea0e5f⟩
    n := 0xffffffffffffffffffffffffffffffffffffffffffffffffc7634d81f4372ddf581a0db248b0a77aecec196accc52973
    cofactor := 1
    size := 48
    objectIdentifier := "1.3.132.0.34" }

/-- Registry curve secp521r1 from the SECG curve table. -/
def secp521r1 : ECDSANamedCurve :=
  { p := 0x01ffffffffffffffffffffffffffffffffffffffffffffffffffffffffffffffffffffffffffffffffffffffffffffffffffffffffffffffffffffffffffffffffff
    a := 0x01fffffffffffffffffffffffffffffffffffffffffffffffffffffffffffffffffffffffffffffffffffffffffffffffffffffffffffffffffffffffffffffffffc
    b := 0x0051953eb9618e1c9a1f929a21a0b68540eea2da725b99b315f3b8b489918ef109e156193951ec7e937b1652c0bd3bb1bf073573df883d2c34f1ef451fd46b503f00
    g := ⟨0x00c6858e06b70404e9cd9e3ecb662395b4429c648139053fb521f828af606b4d3dbaa14b5e77efe75928fe1dc127a2ffa8de3348b3c1856a429bf97e7e31c2e5bd66,
          0x011839296a789a3bc0045c8a5fb42c7d1bd998f54449579b446817afbd17273e662c97ee72995ef42640c550b9013fad0761353c7086a272c24088be94769fd16650⟩
    n := 0x01fffffffffffffffffffffffffffffffffffffffffffffffffffffffffffffffffa51868783bf2f966b7fcc0148f709a5d03bb5c9b8899c47aebb6fb71e91386409
    cofactor := 1
    size := 66
    objectIdentifier := "1.3.132.0.35" }

/-- The fixed table of registry curves defined by the curve-table module. -/
def registryCurves : List ECDSANamedCurve :=
  [secp192k1, secp192r1, secp224k1, secp224r1, secp256k1, secp256r1, secp384r1, secp521r1]

/-- Instance of the curve class with small parameters, used to exhibit
behavior of the verifier on concrete inputs.  The points `(5, 1)` and `(5, 6)`
lie on `y² = x³ + 2` over `GF(7)` and generate a subgroup of order 3, so the
stored base-point order is `n = 3` while both subgroup points have
`x = 5 ∈ [n, p)`. -/
def toyCurve : ECDSANamedCurve :=
  { p := 7, a := 0, b := 2, g := ⟨5, 1⟩, n := 3, cofactor := 1, size := 1
    objectIdentifier := "1.0" }

/-- Public key on `toyCurve` whose point is the base point itself. -/
def toyKey : ECDSAPublicKey := ⟨toyCurve, 5, 1⟩

/-- Truncating remainder negates with the dividend. -/
theorem neg_tmod (a b : Int) : (-a).tmod b = -(a.tmod b) := by
  rw [Int.tmod_def, Int.tmod_def, Int.neg_tdiv]
  ring

/-- Lower bound for the truncating remainder with a positive divisor. -/
theorem neg_lt_tmod (a : Int) {b : Int} (hb : 0 < b) : -b < a.tmod b := by
  rcases le_or_lt 0 a with h | h
  · have := Int.tmod_nonneg (a := a) b h
    omega
  · have h1 : (-a).tmod b < b := Int.tmod_lt_of_pos _ hb
    have h2 : (-a).tmod b = -(a.tmod b) := neg_tmod a b
    omega

/-- The truncating remainder is congruent to the dividend. -/
theorem tmod_emod (x y : Int) : x.tmod y % y = x % y := by
  rw [Int.tmod_def]
  have h : x - y * x.tdiv y = x + -x.tdiv y * y := by ring
  rw [h, Int.add_mul_emod_self]

/-- For a positive modulus, `euclideanMod` agrees with mathematical `emod`. -/
theorem euclideanMod_eq_emod (x : Int) {y : Int} (hy : 0 < y) : euclideanMod x y = x % y := by
  unfold euclideanMod
  by_cases h : x.tmod y < 0
  · rw [if_pos h]
    have h1 := neg_lt_tmod x hy
    have h2 : (x.tmod y + y) % y = x % y := by
      have h3 : x.tmod y + y = x.tmod y + y * 1 := by ring
      rw [h3, Int.add_mul_emod_self_left, tmod_emod]
    have h3 : 0 ≤ x.tmod y + y := by omega
    have h4 : x.tmod y + y < y := by omega
    rw [← Int.emod_eq_of_lt h3 h4]
    exact h2
  · rw [if_neg h]
    push_neg at h
    have h1 : x.tmod y < y := Int.tmod_lt_of_pos x hy
    rw [← Int.emod_eq_of_lt h h1]
    exact tmod_emod x y

/-- Nonnegativity of `euclideanMod` for a positive modulus. -/
theorem euclideanMod_nonneg (x : Int) {y : Int} (hy : 0 < y) : 0 ≤ euclideanMod x y := by
  rw [euclideanMod_eq_emod x hy]
  exact Int.emod_nonneg x (by omega)

/-- Upper bound of `euclideanMod` for a positive modulus. -/
theorem euclideanMod_lt (x : Int) {y : Int} (hy : 0 < y) : euclideanMod x y < y := by
  rw [euclideanMod_eq_emod x hy]
  exact Int.emod_lt_of_pos x hy

/-- Shifting the argument by a multiple of the modulus leaves `euclideanMod`
unchanged (positive modulus). -/
theorem euclideanMod_add_mul_self (a b : Int) {n : Int} (hn : 0 < n) :
    euclideanMod (a + b * n) n = euclideanMod a n := by
  rw [euclideanMod_eq_emod _ hn, euclideanMod_eq_emod _ hn, Int.add_mul_emod_self]

/-- C10: for every curve and every byte buffer of length `2·curve.size + 1`
whose first byte is 0x04, `decodeSEC1PublicKey` returns the public key whose
coordinates are the big-endian integers parsed from the two halves, with no
on-curve or subgroup check of any kind (the result is `ok` for arbitrary
coordinate bytes). -/
theorem C10_decode_uncompressed_unchecked (curve : ECDSANamedCurve) (bytes : List Nat)
    (hlen : bytes.length = curve.size * 2 + 1) (hhead : bytes.headD 0 = 4) :
    decodeSEC1PublicKey curve bytes =
      Except.ok { curve := curve
                  x := bigIntFromBytes ((bytes.drop 1).take curve.size)
                  y := bigIntFromBytes (bytes.drop (curve.size + 1)) } := by
  have h1 : ¬ bytes.length < 1 := by omega
  unfold decodeSEC1PublicKey
  rw [if_neg h1, if_pos hhead, if_neg (show ¬bytes.length ≠ curve.size * 2 + 1 by omega)]

/-- Witness for C10: on the toy curve (`size = 1`), the buffer
`[0x04, 1, 1]` decodes successfully to the key `(1, 1)` even though `(1, 1)`
is not on the curve (`1² ≢ 1³ + 2 (mod 7)`). -/
theorem C10_witness :
    decodeSEC1PublicKey toyCurve [4, 1, 1] = Except.ok ⟨toyCurve, 1, 1⟩ ∧
    toyCurve.isOnCurve ⟨1, 1⟩ = Except.ok false :=
  ⟨(C10_decode_uncompressed_unchecked toyCurve [4, 1, 1] (by decide) (by decide)).trans
    (by decide), by decide⟩

/-- C8: `decodeIEEEP1363ECDSASignature` on a buffer whose length differs from
`2·curve.size` throws the decode error (it never truncates or pads); on a
buffer of exactly `2·curve.size` bytes it splits at the midpoint, reading the
first half as `r` and the second half as `s`, each big-endian, and feeds them
to the `ECDSASignature` constructor. -/
theorem C8_decodeIEEEP1363_exact_length (curve : ECDSANamedCurve) (bytes : List Nat) :
    (bytes.length ≠ curve.size * 2 →
      decodeIEEEP1363ECDSASignature curve bytes =
        Except.error "Failed to decode signature: Invalid signature size") ∧
    (bytes.length = curve.size * 2 →
      decodeIEEEP1363ECDSASignature curve bytes =
        ECDSASignature.create (bigIntFromBytes (bytes.take curve.size))
          (bigIntFromBytes (bytes.drop curve.size))) := by
  constructor <;> intro h <;> simp [decodeIEEEP1363ECDSASignature, h]

/-- Witness for C8: on the toy curve (`size = 1`), `[1, 2]` decodes to the
signature `(r, s) = (1, 2)` and the short buffer `[1]` is rejected. -/
theorem C8_witness :
    decodeIEEEP1363ECDSASignature toyCurve [1, 2] = Except.ok ⟨1, 2⟩ ∧
    decodeIEEEP1363ECDSASignature toyCurve [1] =
      Except.error "Failed to decode signature: Invalid signature size" :=
  ⟨((C8_decodeIEEEP1363_exact_length toyCurve [1, 2]).2 (by decide)).trans (by decide),
    (C8_decodeIEEEP1363_exact_length toyCurve [1]).1 (by decide)⟩

/-- C3 (code bug): on the `p ≡ 3 (mod 4)` fast path `tonelliShanks` performs
no residuosity check at all: for the odd prime `p = 3` and the non-residue
`n = 2` (no integer square is ≡ 2 mod 3) it returns the value 2 with
`2² ≡ 1 ≢ 2 (mod 3)` instead of failing, contradicting its own `@throws`
documentation and the claim. -/
theorem C3_fast_path_returns_nonroot :
    tonelliShanks 2 3 = Except.ok 2 ∧
    (∀ r : Int, euclideanMod (r ^ 2) 3 ≠ 2) ∧
    euclideanMod (2 ^ 2) 3 ≠ euclideanMod 2 3 := by
  refine ⟨by decide, ?_, by decide⟩
  intro r
  rw [euclideanMod_eq_emod _ (by norm_num)]
  rw [← (Int.ModEq.pow 2 (Int.mod_modEq r 3)).eq]
  have h0 : 0 ≤ r % 3 := Int.emod_nonneg r (by norm_num)
  have h1 : r % 3 < 3 := Int.emod_lt_of_pos r (by norm_num)
  have h2 : r % 3 = 0 ∨ r % 3 = 1 ∨ r % 3 = 2 := by omega
  rcases h2 with h | h | h <;> rw [h] <;> decide

/-- C2 (code bug): a complete verification run on the toy curve in which every
step succeeds, the signature satisfies `r ≡ R.x (mod n)` (here `r = R.x = 5`
exactly) and `R.x = 5` lies in `[n, p) = [3, 7)`, yet the code returns
`false`: the final comparison tests `euclideanMod(r, n) = 2` against the
unreduced affine coordinate `R.x = 5`.  Inputs: public key `Q = (5, 1)`,
hash byte `[2]` (so `u1 = 2`), signature `(r, s) = (5, 1)` (so `u2 = 2`);
`u1·G = (5, 6)`, `u2·Q = (5, 6)`, `R = u1·G + u2·Q = (5, 1)`. -/
theorem C2_unreduced_affine_comparison :
    verifyECDSASignature toyKey [2] ⟨5, 1⟩ = Except.ok false ∧
    toyCurve.isOnCurve ⟨5, 1⟩ = Except.ok true ∧
    toyCurve.multiply toyCurve.n ⟨5, 1⟩ = Except.ok none ∧
    inverseMod 1 toyCurve.n = Except.ok 1 ∧
    euclideanMod (bigIntFromBytes [2] * 1) toyCurve.n = 2 ∧
    euclideanMod (5 * 1) toyCurve.n = 2 ∧
    toyCurve.multiply 2 toyCurve.g = Except.ok (some ⟨5, 6⟩) ∧
    toyCurve.multiply 2 ⟨5, 1⟩ = Except.ok (some ⟨5, 6⟩) ∧
    toyCurve.add ⟨5, 6⟩ ⟨5, 6⟩ = Except.ok (some ⟨5, 1⟩) ∧
    Int.ModEq toyCurve.n 5 5 ∧
    toyCurve.n ≤ 5 ∧ (5 : Int) < toyCurve.p := by
  exact ⟨by decide, by decide, by decide, by decide, by decide, by decide, by decide,
    by decide, by decide, Int.ModEq.refl 5, by decide, by decide⟩

/-- C1 (counterexample): on the toy curve the public key `(5, 1)` passes the
on-curve and subgroup checks, yet verifying a signature with `s = 3 = n`
(constructible, since the constructor only demands `r, s ≥ 1`) makes
`verifyECDSASignature` propagate the arithmetic error thrown by `inverseMod`
instead of returning `false`. -/
theorem C1_counterexample :
    verifyECDSASignature toyKey [2] ⟨1, 3⟩ =
      Except.error "a and n is not relatively prime" ∧
    toyCurve.isOnCurve ⟨5, 1⟩ = Except.ok true ∧
    toyCurve.multiply toyCurve.n ⟨5, 1⟩ = Except.ok none ∧
    Int.gcd 3 toyCurve.n ≠ 1 := by
  exact ⟨by decide, by decide, by decide, by decide⟩

/-- State transformer of the double-and-add loop: the `(k, res, temp)` state
after running a given number of iterations of `multiplyLoop`. -/
def multiplyState (c : ECDSANamedCurve) :
    Nat → Nat → JacobianPoint → JacobianPoint → Nat × JacobianPoint × JacobianPoint
  | 0, k, res, temp => (k, res, temp)
  | fuel+1, k, res, temp =>
    multiplyState c fuel (k / 2) (if k % 2 = 1 then c.addJacobian res temp else res)
      (c.doubleJacobian temp)

/-- Splitting the fuel of `multiplyLoop`: running `a + b` iterations is
running `b` iterations from the state reached after `a` iterations. -/
theorem multiplyLoop_split (c : ECDSANamedCurve) (a b : Nat) (k : Nat)
    (res temp : JacobianPoint) :
    multiplyLoop c (a + b) k res temp =
      multiplyLoop c b (multiplyState c a k res temp).1
        (multiplyState c a k res temp).2.1 (multiplyState c a k res temp).2.2 := by
  induction a generalizing k res temp with
  | zero => simp [multiplyState]
  | succ a ih =>
    rw [Nat.succ_add]
    show multiplyLoop c (a + b + 1) k res temp = _
    rw [show a + b + 1 = (a + b) + 1 from rfl]
    rw [multiplyLoop, multiplyState]
    exact ih _ _ _

/-- Inverse of 1 modulo `n > 1` is 1 in the embedded `inverseMod`. -/
theorem inverseMod_one {n : Int} (hn : 1 < n) : inverseMod 1 n = Except.ok 1 := by
  unfold inverseMod
  dsimp only
  rw [if_neg (show ¬ n < 0 by omega), if_neg (show ¬ (1 : Int) < 0 by norm_num)]
  obtain ⟨m, hm⟩ : ∃ m, n.toNat = m + 1 := ⟨n.toNat - 1, by omega⟩
  rw [hm]
  have e1 : egcdLoop (m + 1 + 1) 1 n 1 0 = (1, 1) := by
    simp [egcdLoop, Int.tmod_one,
      show Int.tmod 1 n = 1 from Int.tmod_eq_of_lt (by norm_num) hn]
  rw [e1]
  norm_num

/-- Scalar 0 multiplies any point to the identity in the embedding. -/
theorem multiply_zero (c : ECDSANamedCurve) (P : ECDSAPoint) :
    c.multiply 0 P = Except.ok none := rfl

/-- Scalar 1 returns the input point unchanged, for reduced coordinates on a
curve with modulus above 1. -/
theorem multiply_one (c : ECDSANamedCurve) (P : ECDSAPoint) (hp : 1 < c.p)
    (hx1 : 0 ≤ P.x) (hx2 : P.x < c.p) (hy1 : 0 ≤ P.y) (hy2 : P.y < c.p) :
    c.multiply 1 P = Except.ok (some P) := by
  unfold ECDSANamedCurve.multiply
  have h1 : multiplyLoop c (bitLen (Int.toNat 1)) (Int.toNat 1) pointAtInfinity
      ⟨P.x, P.y, 1⟩ = JacobianPoint.mk P.x P.y 1 := rfl
  rw [h1]
  unfold ECDSANamedCurve.toAffine
  have hinf : ¬ (JacobianPoint.mk P.x P.y 1).isAtInfinity := by
    intro h
    exact absurd h.2.2 (by norm_num)
  rw [if_neg hinf, inverseMod_one hp]
  have hx : euclideanMod P.x c.p = P.x := by
    rw [euclideanMod_eq_emod _ (show (0:Int) < c.p by omega)]
    exact Int.emod_eq_of_lt hx1 hx2
  have hy : euclideanMod P.y c.p = P.y := by
    rw [euclideanMod_eq_emod _ (show (0:Int) < c.p by omega)]
    exact Int.emod_eq_of_lt hy1 hy2
  simp [hx, hy]


/-- Version of `multiplyLoop_split` that takes the components of the
intermediate state separately (equality checking of whole structures by
kernel reduction is much slower than of their integer fields). -/
theorem multiplyLoop_split' (c : ECDSANamedCurve) (a b : Nat) (k : Nat)
    (res temp : JacobianPoint) (k' : Nat) (x1 y1 z1 x2 y2 z2 : Int)
    (h1 : (multiplyState c a k res temp).1 = k')
    (h2 : (multiplyState c a k res temp).2.1.x = x1)
    (h3 : (multiplyState c a k res temp).2.1.y = y1)
    (h4 : (multiplyState c a k res temp).2.1.z = z1)
    (h5 : (multiplyState c a k res temp).2.2.x = x2)
    (h6 : (multiplyState c a k res temp).2.2.y = y2)
    (h7 : (multiplyState c a k res temp).2.2.z = z2) :
    multiplyLoop c (a + b) k res temp = multiplyLoop c b k' ⟨x1, y1, z1⟩ ⟨x2, y2, z2⟩ := by
  have e1 : (multiplyState c a k res temp).2.1 = JacobianPoint.mk x1 y1 z1 := by
    rw [← h2, ← h3, ← h4]
  have e2 : (multiplyState c a k res temp).2.2 = JacobianPoint.mk x2 y2 z2 := by
    rw [← h5, ← h6, ← h7]
  rw [multiplyLoop_split, h1, e1, e2]

set_option maxRecDepth 100000

/-- Computation lemma: the embedded double-and-add loop sends the scalar
n and the base point of secp192k1 to the Jacobian identity (evaluated in
chunks of 64 loop iterations through componentwise kernel reduction). -/
theorem secp192k1_n_smul_g : secp192k1.multiply secp192k1.n secp192k1.g = Except.ok none := by
  unfold ECDSANamedCurve.multiply
  rw [show bitLen (Int.toNat secp192k1.n) = 192 from by decide]
  rw [show (192 : Nat) = 64 + (64 + (64)) from rfl]
  rw [multiplyLoop_split' secp192k1 64 (64 + (64)) (Int.toNat secp192k1.n) pointAtInfinity ⟨secp192k1.g.x, secp192k1.g.y, 1⟩
    340282366920938463463374607423831735319 4645987371429356677258485993652652967219604510850319284537 3421945763118053488104423380120945183078304727085940247584 2443493419776934603631418387637555984011531671599578743515 3373296886017093754156081770706102506564845407182599874907 4098030925585897050926031571626412807864936143838458120661 3739653159269413176290070189600204612522850789792113750323
    (by decide) (by decide) (by decide) (by decide) (by decide) (by decide) (by decide)]
  rw [multiplyLoop_split' secp192k1 64 (64) 340282366920938463463374607423831735319 ⟨4645987371429356677258485993652652967219604510850319284537, 3421945763118053488104423380120945183078304727085940247584, 2443493419776934603631418387637555984011531671599578743515⟩ ⟨3373296886017093754156081770706102506564845407182599874907, 4098030925585897050926031571626412807864936143838458120661, 3739653159269413176290070189600204612522850789792113750323⟩
    18446744073709551615 70390218621477384517698150107695233807052871506881344968 5400262866014573480996551552288573432616716970754228421262 1708630497076659701448169281973343164768078504416284684653 1746465637470589607684547976473890029580896649281177573919 3570957386759175478616964581529704624478435352427757942725 3724071547621279918025428659311465317579996920733334119301
    (by decide) (by decide) (by decide) (by decide) (by decide) (by decide) (by decide)]
  decide

/-- Computation lemma: the embedded double-and-add loop sends the scalar
n and the base point of secp192r1 to the Jacobian identity (evaluated in
chunks of 64 loop iterations through componentwise kernel reduction). -/
theorem secp192r1_n_smul_g : secp192r1.multiply secp192r1.n secp192r1.g = Except.ok none := by
  unfold ECDSANamedCurve.multiply
  rw [show bitLen (Int.toNat secp192r1.n) = 192 from by decide]
  rw [show (192 : Nat) = 64 + (64 + (64)) from rfl]
  rw [multiplyLoop_split' secp192r1 64 (64 + (64)) (Int.toNat secp192r1.n) pointAtInfinity ⟨secp192r1.g.x, secp192r1.g.y, 1⟩
    340282366920938463463374607430054770742 1130218835927021143836290874956275192721182394635688137942 5399847881940886690434329541322524953287742993395383536577 2685194446236313985150487446856389221949359379633915528016 5972334005579061784783036553977905583232415434689841323172 5106918157865456791864308910506609426792581653526151970924 155120289945376818536994789230120262246448399012250139434
    (by decide) (by decide) (by decide) (by decide) (by decide) (by decide) (by decide)]
  rw [multiplyLoop_split' secp192r1 64 (64) 340282366920938463463374607430054770742 ⟨1130218835927021143836290874956275192721182394635688137942, 5399847881940886690434329541322524953287742993395383536577, 2685194446236313985150487446856389221949359379633915528016⟩ ⟨5972334005579061784783036553977905583232415434689841323172, 5106918157865456791864308910506609426792581653526151970924, 155120289945376818536994789230120262246448399012250139434⟩
    18446744073709551615 5854938262569715717860587282958430233707130625456930228159 4885449303939395561383447828264253313782289671263403979619 6068266405912547537484164910425693288636689386290580044304 3463792934894316172415552684788315952982726127202458456990 544016937699958875954191584305033118947832844773869031379 1911090364339881386460662659840154181242789050516464815817
    (by decide) (by decide) (by decide) (by decide) (by decide) (by decide) (by decide)]
  decide

/-- Computation lemma: the embedded double-and-add loop sends the scalar
n and the base point of secp224k1 to the Jacobian identity (evaluated in
chunks of 64 loop iterations through componentwise kernel reduction). -/
theorem secp224k1_n_smul_g : secp224k1.multiply secp224k1.n secp224k1.g = Except.ok none := by
  unfold ECDSANamedCurve.multiply
  rw [show bitLen (Int.toNat secp224k1.n) = 225 from by decide]
  rw [show (225 : Nat) = 64 + (64 + (64 + (33))) from rfl]
  rw [multiplyLoop_split' secp224k1 64 (64 + (64 + (33))) (Int.toNat secp224k1.n) pointAtInfinity ⟨secp224k1.g.x, secp224k1.g.y, 1⟩
    1461501637330902918203684832716283544023438483844 3146427271497447884970780651973679948526018826347110545282739517046 23777380640687834778651829050356484383596414279905175048957301374227 23544781024328430552424088676585076543746781544001268569298981072855 23340046405897866277541263724586381171695237148945429504024605157567 10276424631934553446025998851246295626923897860538506688303955475502 15912669163865921537058373399234006357244471228011816569346185639910
    (by decide) (by decide) (by decide) (by decide) (by decide) (by decide) (by decide)]
  rw [multiplyLoop_split' secp224k1 64 (64 + (33)) 1461501637330902918203684832716283544023438483844 ⟨3146427271497447884970780651973679948526018826347110545282739517046, 23777380640687834778651829050356484383596414279905175048957301374227, 23544781024328430552424088676585076543746781544001268569298981072855⟩ ⟨23340046405897866277541263724586381171695237148945429504024605157567, 10276424631934553446025998851246295626923897860538506688303955475502, 15912669163865921537058373399234006357244471228011816569346185639910⟩
    79228162514264337593543950336 24734013405269538973194832322076829138640632926111076379073813016298 503198394576273442446493474204883393580955367284051921217187905506 22019818607788255959763155372288063419812303945836611301018933542266 18593002648275314527887877971623691424775217750901392321606725900383 26016335478155161490978210594363570940058669979094110139960558555862 20556640710425756771654056690760440436801209672722527818695724876637
    (by decide) (by decide) (by decide) (by decide) (by decide) (by decide) (by decide)]
  rw [multiplyLoop_split' secp224k1 64 (33) 79228162514264337593543950336 ⟨24734013405269538973194832322076829138640632926111076379073813016298, 503198394576273442446493474204883393580955367284051921217187905506, 22019818607788255959763155372288063419812303945836611301018933542266⟩ ⟨18593002648275314527887877971623691424775217750901392321606725900383, 26016335478155161490978210594363570940058669979094110139960558555862, 20556640710425756771654056690760440436801209672722527818695724876637⟩
    4294967296 24734013405269538973194832322076829138640632926111076379073813016298 503198394576273442446493474204883393580955367284051921217187905506 22019818607788255959763155372288063419812303945836611301018933542266 6751631909866825557315759340420186258602656446582812443602264772024 24608279033067801901415187732940998527735401489556603451773950231386 14255772881232969815688165419265206191841306705902101696165961180903
    (by decide) (by decide) (by decide) (by decide) (by decide) (by decide) (by decide)]
  decide

/-- Computation lemma: the embedded double-and-add loop sends the scalar
n and the base point of secp224r1 to the Jacobian identity (evaluated in
chunks of 64 loop iterations through componentwise kernel reduction). -/
theorem secp224r1_n_smul_g : secp224r1.multiply secp224r1.n secp224r1.g = Except.ok none := by
  unfold ECDSANamedCurve.multiply
  rw [show bitLen (Int.toNat secp224r1.n) = 224 from by decide]
  rw [show (224 : Nat) = 64 + (64 + (64 + (32))) from rfl]
  rw [multiplyLoop_split' secp224r1 64 (64 + (64 + (32))) (Int.toNat secp224r1.n) pointAtInfinity ⟨secp224r1.g.x, secp224r1.g.y, 1⟩
    1461501637330902918203684832716282763069766561854 2645547978727159564080933537873668359846884924042642060882286172455 5242637858679234825856130886547772678244669043745922557345677607980 10691573288665814892472123461094755070007836993264264968324664507628 18354384244065149541376928207243733048360098456534357465040001424835 16633777913681771220194717006542551371730460081506339056856211407094 2051002019088975741412501052298590203556955791062359737277645788357
    (by decide) (by decide) (by decide) (by decide) (by decide) (by decide) (by decide)]
  rw [multiplyLoop_split' secp224r1 64 (64 + (32)) 1461501637330902918203684832716282763069766561854 ⟨2645547978727159564080933537873668359846884924042642060882286172455, 5242637858679234825856130886547772678244669043745922557345677607980, 10691573288665814892472123461094755070007836993264264968324664507628⟩ ⟨18354384244065149541376928207243733048360098456534357465040001424835, 16633777913681771220194717006542551371730460081506339056856211407094, 2051002019088975741412501052298590203556955791062359737277645788357⟩
    79228162514264337593543950335 25096152202226343834623718704001179676799641489924257926742654315762 8896940096936315519001925812532576978589775986941843141095762967557 5928093934385973260131658501015134470914348414777308285038947927596 20723544579569368344270272277886218854080125206289708488031847965819 15270974372085222412204630982961621354887027943317165871567681123420 26378103044622837606470308694984490466599024482993699348602227970914
    (by decide) (by decide) (by decide) (by decide) (by decide) (by decide) (by decide)]
  rw [multiplyLoop_split' secp224r1 64 (32) 79228162514264337593543950335 ⟨25096152202226343834623718704001179676799641489924257926742654315762, 8896940096936315519001925812532576978589775986941843141095762967557, 5928093934385973260131658501015134470914348414777308285038947927596⟩ ⟨20723544579569368344270272277886218854080125206289708488031847965819, 15270974372085222412204630982961621354887027943317165871567681123420, 26378103044622837606470308694984490466599024482993699348602227970914⟩
    4294967295 2404567754128887161875669144568430681361332856915937552897833501421 13710445794282481929070425592455085781489550760029819636539760638973 17876372746213961638975942039648307753592716630867213206638751249180 5074807981414634449431951446562724541021003947626760903903310634371 24528195117865677514487796317356164755282571752844696472134840569106 8567476637092357737719240263151946760877694558592317147314227609135
    (by decide) (by decide) (by decide) (by decide) (by decide) (by decide) (by decide)]
  decide

/-- Computation lemma: the embedded double-and-add loop sends the scalar
n and the base point of secp256k1 to the Jacobian identity (evaluated in
chunks of 64 loop iterations through componentwise kernel reduction). -/
theorem secp256k1_n_smul_g : secp256k1.multiply secp256k1.n secp256k1.g = Except.ok none := by
  unfold ECDSANamedCurve.multiply
  rw [show bitLen (Int.toNat secp256k1.n) = 256 from by decide]
  rw [show (256 : Nat) = 64 + (64 + (64 + (64))) from rfl]
  rw [multiplyLoop_split' secp256k1 64 (64 + (64 + (64))) (Int.toNat secp256k1.n) pointAtInfinity ⟨secp256k1.g.x, secp256k1.g.y, 1⟩
    6277101735386680763835789423207666416078913888336959021115 14175106939001467438250034429289908166459419752827090648948838400582300107147 107729490606255551895550713082751021564973562596020273530344473490772307311876 59548611415846618428562307747960729100319740333859911611671627145745818286287 58220129516345740104658085939204979704372874304485019263213110916114880269298 48659681355241034802048209992901857764924236890931310190175219787879340740195 13764743692197721649457582102511685318669221042208609579645037949626828662434
    (by decide) (by decide) (by decide) (by decide) (by decide) (by decide) (by decide)]
  rw [multiplyLoop_split' secp256k1 64 (64 + (64)) 6277101735386680763835789423207666416078913888336959021115 ⟨14175106939001467438250034429289908166459419752827090648948838400582300107147, 107729490606255551895550713082751021564973562596020273530344473490772307311876, 59548611415846618428562307747960729100319740333859911611671627145745818286287⟩ ⟨58220129516345740104658085939204979704372874304485019263213110916114880269298, 48659681355241034802048209992901857764924236890931310190175219787879340740195, 13764743692197721649457582102511685318669221042208609579645037949626828662434⟩
    340282366920938463463374607431768211454 32781551819295582329491562610300871886072888297200240334104081907860763353524 113056824585485566118630321012504206357095045866248274063204476302809063019021 55125025356538295419266796982643591060867551536025384847268960673217510814770 44971437462722952818336883272686985099022064077026483447244400621966193107566 109413410969086495974316974631273868416736080200117837887757336752560114651340 61983093711403907639549684895923913062842837596430507349655757607498795519580
    (by decide) (by decide) (by decide) (by decide) (by decide) (by decide) (by decide)]
  rw [multiplyLoop_split' secp256k1 64 (64) 340282366920938463463374607431768211454 ⟨32781551819295582329491562610300871886072888297200240334104081907860763353524, 113056824585485566118630321012504206357095045866248274063204476302809063019021, 55125025356538295419266796982643591060867551536025384847268960673217510814770⟩ ⟨44971437462722952818336883272686985099022064077026483447244400621966193107566, 109413410969086495974316974631273868416736080200117837887757336752560114651340, 61983093711403907639549684895923913062842837596430507349655757607498795519580⟩
    18446744073709551615 39495699587720826935658079601710959704154381819871951927712558047579720574380 48246776057648680115805655863885501180979004965848384614453606168068259632205 108431673223324527339133554127920407301970408988188878318444770523237287679051 76288159162728483930640008130380103342777036302569633548724480642391001064729 5037577674903349598876796683074423043276035512036853550021480172465649380109 55089415216914548738798241680917885590004663563031980093840797953365460716841
    (by decide) (by decide) (by decide) (by decide) (by decide) (by decide) (by decide)]
  decide

/-- Computation lemma: the embedded double-and-add loop sends the scalar
n and the base point of secp256r1 to the Jacobian identity (evaluated in
chunks of 64 loop iterations through componentwise kernel reduction). -/
theorem secp256r1_n_smul_g : secp256r1.multiply secp256r1.n secp256r1.g = Except.ok none := by
  unfold ECDSANamedCurve.multiply
  rw [show bitLen (Int.toNat secp256r1.n) = 256 from by decide]
  rw [show (256 : Nat) = 64 + (64 + (64 + (64))) from rfl]
  rw [multiplyLoop_split' secp256r1 64 (64 + (64 + (64))) (Int.toNat secp256r1.n) pointAtInfinity ⟨secp256r1.g.x, secp256r1.g.y, 1⟩
    6277101733925179126845168871924920046844612130713674161796 114204756735439973245512688235075819457946287265206886029432945888107820934274 96567846194673233296042448611602666970408914847643004199993005193979580399395 31360406733976893923476187737629527433174738222776518998636238707572099935612 52776862922208953468374700981410201393650379304932655466538627780144400286125 57233296839985346967958317810434645747104684735493454798869591216595931916709 52599620038535865021887132755369230043834102381628937295541339453954581468626
    (by decide) (by decide) (by decide) (by decide) (by decide) (by decide) (by decide)]
  rw [multiplyLoop_split' secp256r1 64 (64 + (64)) 6277101733925179126845168871924920046844612130713674161796 ⟨114204756735439973245512688235075819457946287265206886029432945888107820934274, 96567846194673233296042448611602666970408914847643004199993005193979580399395, 31360406733976893923476187737629527433174738222776518998636238707572099935612⟩ ⟨52776862922208953468374700981410201393650379304932655466538627780144400286125, 57233296839985346967958317810434645747104684735493454798869591216595931916709, 52599620038535865021887132755369230043834102381628937295541339453954581468626⟩
    340282366841710300967557013911933812735 25294856359383121222866739863947330642240373463308612917794179111255367706989 103984254512651102801720166669291927885771275140651141748028270883423976865048 303034562146351803900019485700842485912782521124551985705898534039337156896 63376687748424887341999817704799865391294847157549620944201196824313100971612 9473707538665462867536798843271354479028965571534737618006990044724058851779 55705590144349756663617343080373322548760623635543596379484614604286697429477
    (by decide) (by decide) (by decide) (by decide) (by decide) (by decide) (by decide)]
  rw [multiplyLoop_split' secp256r1 64 (64) 340282366841710300967557013911933812735 ⟨25294856359383121222866739863947330642240373463308612917794179111255367706989, 103984254512651102801720166669291927885771275140651141748028270883423976865048, 303034562146351803900019485700842485912782521124551985705898534039337156896⟩ ⟨63376687748424887341999817704799865391294847157549620944201196824313100971612, 9473707538665462867536798843271354479028965571534737618006990044724058851779, 55705590144349756663617343080373322548760623635543596379484614604286697429477⟩
    18446744069414584320 77988921283444480653438701857851471344417923852269493843528507739021563472459 6970844935073687528408791475641894234375881982541907892717427241582490613833 42946420068136594905721919579463089557700628168375899530573719992446006995900 106895296204886971861150144985557078140210735123480430325842588989627238264479 13961068662019220734146745720146331000525126739285231515650052978417960475068 19035682823870779899229860284789641871510854803772427304710787993777327665138
    (by decide) (by decide) (by decide) (by decide) (by decide) (by decide) (by decide)]
  decide

/-- Computation lemma: the embedded double-and-add loop sends the scalar
n and the base point of secp384r1 to the Jacobian identity (evaluated in
chunks of 64 loop iterations through componentwise kernel reduction). -/
theorem secp384r1_n_smul_g : secp384r1.multiply secp384r1.n secp384r1.g = Except.ok none := by
  unfold ECDSANamedCurve.multiply
  rw [show bitLen (Int.toNat secp384r1.n) = 384 from by decide]
  rw [show (384 : Nat) = 64 + (64 + (64 + (64 + (64 + (64))))) from rfl]
  rw [multiplyLoop_split' secp384r1 64 (64 + (64 + (64 + (64 + (64))))) (Int.toNat secp384r1.n) pointAtInfinity ⟨secp384r1.g.x, secp384r1.g.y, 1⟩
    2135987035920910082395021706169552114602704522356652769946966357435890534019281930793797045757818 27909761255428806126221543092921049119860270436827428975678514893032144488706840396607282830344476567953432582513135 4835130768530789965494513704091202966176093581537716048624904356343772009951215183470145686883033955722386707504641 33665147903787101625456873050004002395264003378212920368681506299221252407102634509052095963507861580456430737620675 7634788865782325097449217553498955134923853506164218895996821122235475830463331611398390526254097827194869624669292 29019619429583438142449620764554855293519894841737222239827995456046555665650260609123950397582193727739717497416630 38203197979215735360900333640131186846695388146758035733332553653879746359072365415207248761839681689502147878412877
    (by decide) (by decide) (by decide) (by decide) (by decide) (by decide) (by decide)]
  rw [multiplyLoop_split' secp384r1 64 (64 + (64 + (64 + (64)))) 2135987035920910082395021706169552114602704522356652769946966357435890534019281930793797045757818 ⟨27909761255428806126221543092921049119860270436827428975678514893032144488706840396607282830344476567953432582513135, 4835130768530789965494513704091202966176093581537716048624904356343772009951215183470145686883033955722386707504641, 33665147903787101625456873050004002395264003378212920368681506299221252407102634509052095963507861580456430737620675⟩ ⟨7634788865782325097449217553498955134923853506164218895996821122235475830463331611398390526254097827194869624669292, 29019619429583438142449620764554855293519894841737222239827995456046555665650260609123950397582193727739717497416630, 38203197979215735360900333640131186846695388146758035733332553653879746359072365415207248761839681689502147878412877⟩
    115792089237316195423570985008687907853269984665640564039453504676296205479391 24025010450947317918273154176996421009202224916200498197428502998483954798303136937328894776214880497986581734733213 36904779811164239549208283013104029766783540396340128419512761999967817991184934731328916026577340835663974304492290 36322769394879308994789021111193164010689486931891190194623385220935338729152622153165842994886951791764082063913554 33939672191902522031488872129507204056403180524527290262808731831142004169800151406415481398604478926475275736263739 35594738437531625401026704924417093766371642356820987051814453278977619354569011262397029867908859850110569852710063 17762734439661056571526460636606177506217600484891212522300302359225758655606255487908528316431268465089212498547411
    (by decide) (by decide) (by decide) (by decide) (by decide) (by decide) (by decide)]
  rw [multiplyLoop_split' secp384r1 64 (64 + (64 + (64))) 115792089237316195423570985008687907853269984665640564039453504676296205479391 ⟨24025010450947317918273154176996421009202224916200498197428502998483954798303136937328894776214880497986581734733213, 36904779811164239549208283013104029766783540396340128419512761999967817991184934731328916026577340835663974304492290, 36322769394879308994789021111193164010689486931891190194623385220935338729152622153165842994886951791764082063913554⟩ ⟨33939672191902522031488872129507204056403180524527290262808731831142004169800151406415481398604478926475275736263739, 35594738437531625401026704924417093766371642356820987051814453278977619354569011262397029867908859850110569852710063, 17762734439661056571526460636606177506217600484891212522300302359225758655606255487908528316431268465089212498547411⟩
    6277101735386680763835789423207666416102355444464034512895 34622346228934943339343758828356881347557830184349590927192569379431612843243738790339588142217305869391859161982632 15116404901960538485958296643082119053111229903161302319375349584438782990158529174284986963515351048624209858179499 8251597578163149621267760888608013327136549212909303902654127677706653910914990841633825466110059812207753048312242 17206605067237018866223356483186199096237862824256156241459459971107655308912836689616629953643852725241135542004588 36537467880641357340786250666332021814934030052934517261611677045743002299772631004451204471067975728875614629559114 20878461167592302858664405032454385442861980378541156237914215668065920997794855183661039193860747438760078487315694
    (by decide) (by decide) (by decide) (by decide) (by decide) (by decide) (by decide)]
  rw [multiplyLoop_split' secp384r1 64 (64 + (64)) 6277101735386680763835789423207666416102355444464034512895 ⟨34622346228934943339343758828356881347557830184349590927192569379431612843243738790339588142217305869391859161982632, 15116404901960538485958296643082119053111229903161302319375349584438782990158529174284986963515351048624209858179499, 8251597578163149621267760888608013327136549212909303902654127677706653910914990841633825466110059812207753048312242⟩ ⟨17206605067237018866223356483186199096237862824256156241459459971107655308912836689616629953643852725241135542004588, 36537467880641357340786250666332021814934030052934517261611677045743002299772631004451204471067975728875614629559114, 20878461167592302858664405032454385442861980378541156237914215668065920997794855183661039193860747438760078487315694⟩
    340282366920938463463374607431768211455 11677703776276253883146335395964255728794394978187903252088998473930591100320450994480586180389821495381121106837123 15572657133861677156566172911243310781920499358806408917360279296107394296676245513875277889790724854552951842570259 5797656682810019834789564538975408136216621485573979928813253889861250582727384994721453799413554694929253840704570 19844244294652828049106708381763134682404645894327715335242931409880444079564531016790394188690354304256696725029516 21146791629178667288547807366280532835251676761730675777370563702212075480744303930923745466497586755483267311102942 2656926690725752412757304232701538155262999423301015324905499600132434614517548185140826650287330904244743556947287
    (by decide) (by decide) (by decide) (by decide) (by decide) (by decide) (by decide)]
  rw [multiplyLoop_split' secp384r1 64 (64) 340282366920938463463374607431768211455 ⟨11677703776276253883146335395964255728794394978187903252088998473930591100320450994480586180389821495381121106837123, 15572657133861677156566172911243310781920499358806408917360279296107394296676245513875277889790724854552951842570259, 5797656682810019834789564538975408136216621485573979928813253889861250582727384994721453799413554694929253840704570⟩ ⟨19844244294652828049106708381763134682404645894327715335242931409880444079564531016790394188690354304256696725029516, 21146791629178667288547807366280532835251676761730675777370563702212075480744303930923745466497586755483267311102942, 2656926690725752412757304232701538155262999423301015324905499600132434614517548185140826650287330904244743556947287⟩
    18446744073709551615 7646478183601159062046648205000245974197010940300793384075974265558677090669546496018640491065852125309490564119786 5191975053445720735299286118031691093799060570889435463732608744860586687197776400633349940532823977550579264464576 4561918031849281401364855977126332794614483483060761224242411035288726284771208535290120869760748995780002231615723 32583894876789244371721429821313633172031046693935191619608710413972723189868550690715890580703150021673342732727399 31506016857505375347753268435899370938328177631805052576384903566920294164296478474329142598212181263497355617467338 30535705788287743152057154401562458169553916558285883512605676114475149865172315731467220990382262321742727009889954
    (by decide) (by decide) (by decide) (by decide) (by decide) (by decide) (by decide)]
  decide

/-- Computation lemma: the embedded double-and-add loop sends the scalar
n and the base point of secp521r1 to the Jacobian identity (evaluated in
chunks of 64 loop iterations through componentwise kernel reduction). -/
theorem secp521r1_n_smul_g : secp521r1.multiply secp521r1.n secp521r1.g = Except.ok none := by
  unfold ECDSANamedCurve.multiply
  rw [show bitLen (Int.toNat secp521r1.n) = 521 from by decide]
  rw [show (521 : Nat) = 64 + (64 + (64 + (64 + (64 + (64 + (64 + (64 + (9)))))))) from rfl]
  rw [multiplyLoop_split' secp521r1 64 (64 + (64 + (64 + (64 + (64 + (64 + (64 + (9)))))))) (Int.toNat secp521r1.n) pointAtInfinity ⟨secp521r1.g.x, secp521r1.g.y, 1⟩
    372141426839350727961253789638658321589064376671906846864122981980487315514059701079398978807085264201336702466838518192652127852709037998 5916604630598123808322678550331574859203208196464662310310326443451813837321256032054295305427479293565256574473241405507575180247258568880709645547194446050 6404235009197834144497929204762502029359113779541845262967398791779867361733909082818944073108971248596044651744301346550733982798870770505829006785042464074 4718399494958957412970672612418267691812463594116337574419617552092434649029167432119872546273559858612944922903862438984714224256931154793957428814830241099 730942584278121763332927237032253632294969222428073026928140641797554848618441304170098451906393120127210642244473402027573208641108141400926085232351631800 3937838668084201964881145731705241132294536692703135568965142277551682914618019344995590746717664389948751151467508919156898702278113283441885836050728138199 3913709960012866554589823546493044982931053974918714866682830007452709845077404384744715498305875640429270992060681853452707336563047767307754969904908681223
    (by decide) (by decide) (by decide) (by decide) (by decide) (by decide) (by decide)]
  rw [multiplyLoop_split' secp521r1 64 (64 + (64 + (64 + (64 + (64 + (64 + (9))))))) 372141426839350727961253789638658321589064376671906846864122981980487315514059701079398978807085264201336702466838518192652127852709037998 ⟨5916604630598123808322678550331574859203208196464662310310326443451813837321256032054295305427479293565256574473241405507575180247258568880709645547194446050, 6404235009197834144497929204762502029359113779541845262967398791779867361733909082818944073108971248596044651744301346550733982798870770505829006785042464074, 4718399494958957412970672612418267691812463594116337574419617552092434649029167432119872546273559858612944922903862438984714224256931154793957428814830241099⟩ ⟨730942584278121763332927237032253632294969222428073026928140641797554848618441304170098451906393120127210642244473402027573208641108141400926085232351631800, 3937838668084201964881145731705241132294536692703135568965142277551682914618019344995590746717664389948751151467508919156898702278113283441885836050728138199, 3913709960012866554589823546493044982931053974918714866682830007452709845077404384744715498305875640429270992060681853452707336563047767307754969904908681223⟩
    20173827172553973356686868531273530268200826506478308693989526222973809547006569899715886797847097706793843746740479440 984123666128915775014530488967088155530983669227012238439302254943923666025378958690555846029523508583775074193435186943831356098595362666327748845250210186 441532277128720788709729365063009026750666466644987740801668297825551475833119830836783690913052731710901848447791839514877350922761403232658133070984622965 3670616154890159729068455931244636440252364412841352142570982706833287396964116059755743457927985307996208711518733159214833605932881480824603484227685271513 5655411820398605520370430774748493084180628910302243354514681168860599762879552813673663938166326621616719783737411465343912411723562706874884500189435217371 2420287624527826405881165783589308641005078240128005765141963011174947228385545642103453069258841327923743776835657492681130406056774140107254300522559143452 1460491267372786134713290230917821303848510745300301100401803879629702195450075821193155204725732348933237724532550054120191759160231931407934013806903985421
    (by decide) (by decide) (by decide) (by decide) (by decide) (by decide) (by decide)]
  rw [multiplyLoop_split' secp521r1 64 (64 + (64 + (64 + (64 + (64 + (9)))))) 20173827172553973356686868531273530268200826506478308693989526222973809547006569899715886797847097706793843746740479440 ⟨984123666128915775014530488967088155530983669227012238439302254943923666025378958690555846029523508583775074193435186943831356098595362666327748845250210186, 441532277128720788709729365063009026750666466644987740801668297825551475833119830836783690913052731710901848447791839514877350922761403232658133070984622965, 3670616154890159729068455931244636440252364412841352142570982706833287396964116059755743457927985307996208711518733159214833605932881480824603484227685271513⟩ ⟨5655411820398605520370430774748493084180628910302243354514681168860599762879552813673663938166326621616719783737411465343912411723562706874884500189435217371, 2420287624527826405881165783589308641005078240128005765141963011174947228385545642103453069258841327923743776835657492681130406056774140107254300522559143452, 1460491267372786134713290230917821303848510745300301100401803879629702195450075821193155204725732348933237724532550054120191759160231931407934013806903985421⟩
    1093625362391505962186251113558810682676584715446606218212885303204976499599687856805823910123640427 5940734038737089719317158288941598671515851592697063814659224335937407108109196896223006199858686889594417434678284874199038627560119846591355962238349485223 4062588548845804815905478928575972827254592014499308500413577189409248723528973125474446309014864067009944612058505416136881819660976484837544187065797650187 4372875178197667816540425477902152003647483986551669478923613432726114763557329352653091671875822224668302066109612068317281913620609954929569972575011350334 1542968308263434463845932752543520996474991755071539645376757314713832425276860199149157016184730329894026425100132251478794423158753437485927599134545470579 3450003722552498274801496093798852165346640327811713711287573107744884397369374977119701574941944745993890682958106194753603666579244737458775663677352071830 3811868396979388720970363610187417966543636266486332595841380670470382519892503111383854187240264098958006724774149034123332170783188849453131956372151136178
    (by decide) (by decide) (by decide) (by decide) (by decide) (by decide) (by decide)]
  rw [multiplyLoop_split' secp521r1 64 (64 + (64 + (64 + (64 + (9))))) 1093625362391505962186251113558810682676584715446606218212885303204976499599687856805823910123640427 ⟨5940734038737089719317158288941598671515851592697063814659224335937407108109196896223006199858686889594417434678284874199038627560119846591355962238349485223, 4062588548845804815905478928575972827254592014499308500413577189409248723528973125474446309014864067009944612058505416136881819660976484837544187065797650187, 4372875178197667816540425477902152003647483986551669478923613432726114763557329352653091671875822224668302066109612068317281913620609954929569972575011350334⟩ ⟨1542968308263434463845932752543520996474991755071539645376757314713832425276860199149157016184730329894026425100132251478794423158753437485927599134545470579, 3450003722552498274801496093798852165346640327811713711287573107744884397369374977119701574941944745993890682958106194753603666579244737458775663677352071830, 3811868396979388720970363610187417966543636266486332595841380670470382519892503111383854187240264098958006724774149034123332170783188849453131956372151136178⟩
    59285549689505892056868344324448208820874232148807968788202283012051522375647226 5560888419388974564592216029329093465164221961964007088324302731889385050710797214220957916252764837871986105781956526470946688959432013468323149806883528850 451277376001410354076434481910140422826092864691062010839627019424541479777710498787430747178105884684255346006589520085052284012268357371894884224007523828 6587855341408900825488068611199181516784226172213463307399571150042567870886047412892689785959955740616273392687013718542009558034809434943798237149596371829 1927938272181657976883409525967636563093487364504192656636291906217698842863197178279215499961590711950667580326446576692713940835254200690573541625830401045 1655980053929319081313758677541732099796150054315397938790564603522615493925016695213455469914004307411825927298182995544483087969585269686520416189819588695 3267827484012456111466160308680502589410385257038095733471018102200617411482423808629896474779516414323355374181226783768113470670053518025996698549211183306
    (by decide) (by decide) (by decide) (by decide) (by decide) (by decide) (by decide)]
  rw [multiplyLoop_split' secp521r1 64 (64 + (64 + (64 + (9)))) 59285549689505892056868344324448208820874232148807968788202283012051522375647226 ⟨5560888419388974564592216029329093465164221961964007088324302731889385050710797214220957916252764837871986105781956526470946688959432013468323149806883528850, 451277376001410354076434481910140422826092864691062010839627019424541479777710498787430747178105884684255346006589520085052284012268357371894884224007523828, 6587855341408900825488068611199181516784226172213463307399571150042567870886047412892689785959955740616273392687013718542009558034809434943798237149596371829⟩ ⟨1927938272181657976883409525967636563093487364504192656636291906217698842863197178279215499961590711950667580326446576692713940835254200690573541625830401045, 1655980053929319081313758677541732099796150054315397938790564603522615493925016695213455469914004307411825927298182995544483087969585269686520416189819588695, 3267827484012456111466160308680502589410385257038095733471018102200617411482423808629896474779516414323355374181226783768113470670053518025996698549211183306⟩
    3213876088517980551083924184682325205044405987565585670602751 6081741364086469601960521083877583391488899839773480901824095913561731254535837726855432170419828419143068230182810209041230627940996988362496907458614965422 720239387359130269986231244650676405519041543409221101100097353266989104155911419856889482060614779253267216114781728712297995288138541985567592231834227845 4742163043858963889877360522104515485038452350274519978884186156847023599285434849077676555950356176659572292712389340952515449235884964879922966899521134376 4232870800719071696507386127714776710444909443409006236839172531668641693937952558640634200325320970510535201670499795465353556818533146209042762417188349242 5327749238726822724531502581532110811831378769905974450548904027559891193360174293720757580005544895908822173309052063461561561908333377366457534075344580880 6165585729139346249319140419083281566984584954872666834841068547319393142739896164385117839536068014443690292342732899867185207286781456586850514095680770775
    (by decide) (by decide) (by decide) (by decide) (by decide) (by decide) (by decide)]
  rw [multiplyLoop_split' secp521r1 64 (64 + (64 + (9))) 3213876088517980551083924184682325205044405987565585670602751 ⟨6081741364086469601960521083877583391488899839773480901824095913561731254535837726855432170419828419143068230182810209041230627940996988362496907458614965422, 720239387359130269986231244650676405519041543409221101100097353266989104155911419856889482060614779253267216114781728712297995288138541985567592231834227845, 4742163043858963889877360522104515485038452350274519978884186156847023599285434849077676555950356176659572292712389340952515449235884964879922966899521134376⟩ ⟨4232870800719071696507386127714776710444909443409006236839172531668641693937952558640634200325320970510535201670499795465353556818533146209042762417188349242, 5327749238726822724531502581532110811831378769905974450548904027559891193360174293720757580005544895908822173309052063461561561908333377366457534075344580880, 6165585729139346249319140419083281566984584954872666834841068547319393142739896164385117839536068014443690292342732899867185207286781456586850514095680770775⟩
    174224571863520493293247799005065324265471 552562892463157464002956907722366468316612644038376376535948001843948182374794934909063497952155055147924358935385482634309022994327926782624723412576781927 4772723364299979775257289267378553353259652739121529560295797497311532881684789482566874491478118242557465879274576337167327953688004323984916167009710476902 3310715973515397494889129661362588609524559452008608667991097168920574641550828168284786494248279282271474707763247799882633305770947112777930076947818857277 2674483622076434413661862332378131044830934439898916280747999254720663853703501023104672910796576344625390490231265480756032251170887097739772332919327934564 6394017599941413500781184639264112395590265764124328623100218177596909518719818728166259693644229684601658222667468437498154632752814124597986346533476183046 3909476522566415711927400397051441848268993607836049358084948692152962800552067203181498596477957674760089729375215276716091738990470770253187752492839621357
    (by decide) (by decide) (by decide) (by decide) (by decide) (by decide) (by decide)]
  rw [multiplyLoop_split' secp521r1 64 (64 + (9)) 174224571863520493293247799005065324265471 ⟨552562892463157464002956907722366468316612644038376376535948001843948182374794934909063497952155055147924358935385482634309022994327926782624723412576781927, 4772723364299979775257289267378553353259652739121529560295797497311532881684789482566874491478118242557465879274576337167327953688004323984916167009710476902, 3310715973515397494889129661362588609524559452008608667991097168920574641550828168284786494248279282271474707763247799882633305770947112777930076947818857277⟩ ⟨2674483622076434413661862332378131044830934439898916280747999254720663853703501023104672910796576344625390490231265480756032251170887097739772332919327934564, 6394017599941413500781184639264112395590265764124328623100218177596909518719818728166259693644229684601658222667468437498154632752814124597986346533476183046, 3909476522566415711927400397051441848268993607836049358084948692152962800552067203181498596477957674760089729375215276716091738990470770253187752492839621357⟩
    9444732965739290427391 281558928412504144559303828569759856704670761604124681801417708087301685201289235774623514594818154551666471978740610813436328412355820448714603322727620216 1060755131141273722976609302520096914210230388186686290704585674010431360653470916076621679696095797646212322182578765937131386095407307926475085153472380642 4171171960209173870410119597655915033626376010573053438625546599085890255251392791744154152512286386096888192968359962287130174183527031128738156579221894471 6784740184854334406230854078314762117979583734698014394059513118276417556135509611159156940728903216030263507416292130714503270122337564111659743164520974246 586369392418239183349578372875028042440730875934172304700197519657608162691044199892047330297920160386671796555920729905844936374004938789100307951465342351 2021097325964390089442538784649387778107803902759981067637251235566433167832084922724164575552422060258531132692455269390986547240413658272074321547157785291
    (by decide) (by decide) (by decide) (by decide) (by decide) (by decide) (by decide)]
  rw [multiplyLoop_split' secp521r1 64 (9) 9444732965739290427391 ⟨281558928412504144559303828569759856704670761604124681801417708087301685201289235774623514594818154551666471978740610813436328412355820448714603322727620216, 1060755131141273722976609302520096914210230388186686290704585674010431360653470916076621679696095797646212322182578765937131386095407307926475085153472380642, 4171171960209173870410119597655915033626376010573053438625546599085890255251392791744154152512286386096888192968359962287130174183527031128738156579221894471⟩ ⟨6784740184854334406230854078314762117979583734698014394059513118276417556135509611159156940728903216030263507416292130714503270122337564111659743164520974246, 586369392418239183349578372875028042440730875934172304700197519657608162691044199892047330297920160386671796555920729905844936374004938789100307951465342351, 2021097325964390089442538784649387778107803902759981067637251235566433167832084922724164575552422060258531132692455269390986547240413658272074321547157785291⟩
    511 2608880242323765226919102492052221019313389178819504875949540674810511510875060685035810707314671583013197124834027245919351155853010160098210323624583241216 1052061538889684626702977478911907567485450768905114612151959260455396280026025967452777581180755252294722318035310448326920782187822009160878777563668022226 2981970628766773511262856708355294053457389825622527988310854465781639447015876572780110606515584928070715810598901536235944927962733125473485046063008248820 2229809060381493891235449142758960278886456436372490874152248666682298699699794788146706870345519441963966863693829255591612416790809625635857337551523810506 6677717145113745480140095540432212902751449068067410923866309580996894074322700882433302739407477618624091567793231067078317678104514117647716023565110130073 2362253373688915199626694370004115333595067090512052193629524398947159802488988155125730590926792211875390260298897123286690627672099087249744873990500444888
    (by decide) (by decide) (by decide) (by decide) (by decide) (by decide) (by decide)]
  decide


/-- C7: for every registry curve and every affine point on it (reduced
coordinates satisfying the curve equation), `multiply 0 P` yields the
identity (`null` in the source, embedded as `none`), `multiply 1 P` returns
the point unchanged, and `multiply n G` of the base point by the stored group
order yields the identity. -/
theorem C7_multiply_zero_one_order :
    ∀ c ∈ registryCurves, ∀ P : ECDSAPoint,
    0 ≤ P.x → P.x < c.p → 0 ≤ P.y → P.y < c.p →
    euclideanMod (P.y ^ 2) c.p = euclideanMod (P.x ^ 3 + c.a * P.x + c.b) c.p →
    c.multiply 0 P = Except.ok none ∧
    c.multiply 1 P = Except.ok (some P) ∧
    c.multiply c.n c.g = Except.ok none := by
  intro c hc P hx0 hx1 hy0 hy1 _honc
  simp only [registryCurves, List.mem_cons, List.not_mem_nil, or_false] at hc
  rcases hc with rfl | rfl | rfl | rfl | rfl | rfl | rfl | rfl
  · exact ⟨multiply_zero _ _, multiply_one _ _ (by decide) hx0 hx1 hy0 hy1, secp192k1_n_smul_g⟩
  · exact ⟨multiply_zero _ _, multiply_one _ _ (by decide) hx0 hx1 hy0 hy1, secp192r1_n_smul_g⟩
  · exact ⟨multiply_zero _ _, multiply_one _ _ (by decide) hx0 hx1 hy0 hy1, secp224k1_n_smul_g⟩
  · exact ⟨multiply_zero _ _, multiply_one _ _ (by decide) hx0 hx1 hy0 hy1, secp224r1_n_smul_g⟩
  · exact ⟨multiply_zero _ _, multiply_one _ _ (by decide) hx0 hx1 hy0 hy1, secp256k1_n_smul_g⟩
  · exact ⟨multiply_zero _ _, multiply_one _ _ (by decide) hx0 hx1 hy0 hy1, secp256r1_n_smul_g⟩
  · exact ⟨multiply_zero _ _, multiply_one _ _ (by decide) hx0 hx1 hy0 hy1, secp384r1_n_smul_g⟩
  · exact ⟨multiply_zero _ _, multiply_one _ _ (by decide) hx0 hx1 hy0 hy1, secp521r1_n_smul_g⟩

/-- Witness for C7: the three conclusions instantiated at the secp256r1 base
point, whose coordinates are reduced and satisfy the curve equation. -/
theorem C7_witness :
    secp256r1.multiply 0 secp256r1.g = Except.ok none ∧
    secp256r1.multiply 1 secp256r1.g = Except.ok (some secp256r1.g) ∧
    secp256r1.multiply secp256r1.n secp256r1.g = Except.ok none :=
  C7_multiply_zero_one_order secp256r1 (by decide) secp256r1.g (by decide) (by decide)
    (by decide) (by decide) (by decide)

/-- C9: the verifier depends on the signature component `r` only through its
residue modulo `curve.n`: replacing `r` by `r + n` produces the same result
(for a nonnegative stored order; `u2` and the final comparison both reduce
`r` modulo `n` first). -/
theorem C9_r_shift_invariant (pk : ECDSAPublicKey) (hash : List Nat) (r s : Int)
    (hn : 0 ≤ pk.curve.n) (_hr : 1 ≤ r) (_hs : 1 ≤ s)
    (_hrn : 1 ≤ r + pk.curve.n) :
    verifyECDSASignature pk hash ⟨r + pk.curve.n, s⟩ =
      verifyECDSASignature pk hash ⟨r, s⟩ := by
  rcases eq_or_lt_of_le hn with h0 | hpos
  · rw [show r + pk.curve.n = r by omega]
  · unfold verifyECDSASignature
    dsimp only
    have e2 : ∀ w2 : Int, euclideanMod ((r + pk.curve.n) * w2) pk.curve.n =
        euclideanMod (r * w2) pk.curve.n := by
      intro w2
      rw [show (r + pk.curve.n) * w2 = r * w2 + w2 * pk.curve.n by ring]
      exact euclideanMod_add_mul_self _ _ hpos
    have e3 : euclideanMod (r + pk.curve.n) pk.curve.n = euclideanMod r pk.curve.n := by
      rw [show r + pk.curve.n = r + 1 * pk.curve.n by ring]
      exact euclideanMod_add_mul_self _ _ hpos
    simp only [e2, e3]

/-- Witness for C9: on the toy curve, shifting `r = 5` by `n = 3` leaves the
verification result unchanged. -/
theorem C9_witness :
    verifyECDSASignature toyKey [2] ⟨5 + toyKey.curve.n, 1⟩ =
      verifyECDSASignature toyKey [2] ⟨5, 1⟩ :=
  C9_r_shift_invariant toyKey [2] 5 1 (by decide) (by decide) (by decide) (by decide)

/-- Absolute values add when subtracting integers of opposite (or zero)
signs. -/
theorem natAbs_sub_of_mul_nonpos {x y : Int} (h : x * y ≤ 0) :
    (((x - y).natAbs : Int)) = (x.natAbs : Int) + (y.natAbs : Int) := by
  rcases le_or_lt 0 x with hx | hx <;> rcases le_or_lt 0 y with hy | hy
  · have h0 : x * y = 0 := le_antisymm h (mul_nonneg hx hy)
    rcases mul_eq_zero.mp h0 with rfl | rfl <;> omega
  · omega
  · omega
  · exact absurd h (not_le.mpr (mul_pos_of_neg_of_neg hx hy))

/-- Sign bookkeeping for the Bézout coefficients: when `s1` and `s2` have
opposite (or zero) signs and `q ≥ 0`, the absolute value of `s3 = s1 - q·s2`
is `|s1| + q·|s2|` and `s3` has the sign opposite to `s2`. -/
theorem bezout_sign_step (s1 s2 q : Int) (hq : 0 ≤ q) (h7 : s1 * s2 ≤ 0) :
    ((s1 - q * s2).natAbs : Int) = (s1.natAbs : Int) + q * (s2.natAbs : Int) ∧
    s2 * (s1 - q * s2) ≤ 0 := by
  have hprod : s1 * (q * s2) ≤ 0 := by
    have := mul_nonpos_of_nonneg_of_nonpos hq h7
    nlinarith
  have habs : ((q * s2).natAbs : Int) = q * (s2.natAbs : Int) := by
    rw [Int.natAbs_mul]
    push_cast
    rw [abs_of_nonneg hq]
  constructor
  · rw [natAbs_sub_of_mul_nonpos hprod, habs]
  · have hsq : 0 ≤ q * (s2 * s2) := mul_nonneg hq (mul_self_nonneg s2)
    nlinarith

/-- Main invariant of the extended Euclidean loop: starting from a state
`(d, v, s1, s2)` whose Bézout data is consistent with the pair `(A, N)`
(`A ≥ 0`, `N ≥ 1`), the loop returns the gcd of `A` and `N` together with a
Bézout coefficient `t` with `t·A ≡ gcd (mod N)`, and `|t| < N` whenever the
gcd is 1 and `N ≥ 2`. -/
theorem egcdLoop_invariant (A N : Int) (_hA : 0 ≤ A) (hN : 1 ≤ N) :
    ∀ (fuel : Nat) (d v s1 s2 : Int),
    0 ≤ d → 1 ≤ v → v.natAbs ≤ fuel →
    s1 * A ≡ d [ZMOD N] → s2 * A ≡ v [ZMOD N] →
    Nat.gcd v.natAbs d.natAbs = Nat.gcd N.natAbs A.natAbs →
    (s1.natAbs : Int) * v + (s2.natAbs : Int) * d = N →
    s1 * s2 ≤ 0 →
    (v < d ∨ (s2 = 0 ∧ v = N)) →
    (egcdLoop fuel d v s1 s2).1 = (Nat.gcd N.natAbs A.natAbs : Int) ∧
    (egcdLoop fuel d v s1 s2).2 * A ≡ (Nat.gcd N.natAbs A.natAbs : Int) [ZMOD N] ∧
    (Nat.gcd N.natAbs A.natAbs = 1 → 2 ≤ N →
      -N < (egcdLoop fuel d v s1 s2).2 ∧ (egcdLoop fuel d v s1 s2).2 < N) := by
  intro fuel
  induction fuel with
  | zero =>
    intro d v s1 s2 _hd hv hfuel _h3 _h4 _h5 _h6 _h7 _h8
    exact absurd hfuel (by omega)
  | succ f ih =>
    intro d v s1 s2 hd hv hfuel h3 h4 h5 h6 h7 h8
    have hvpos : (0 : Int) < v := hv
    have htmod : d.tmod v = d % v := Int.tmod_eq_emod hd (le_of_lt hvpos)
    have htdiv : d.tdiv v = d / v := Int.tdiv_eq_ediv hd (le_of_lt hvpos)
    have hremnn : 0 ≤ d.tmod v := by
      rw [htmod]
      exact Int.emod_nonneg d (by omega)
    have hremlt : d.tmod v < v := by
      rw [htmod]
      exact Int.emod_lt_of_pos d hvpos
    simp only [egcdLoop]
    by_cases hrem : d.tmod v = 0
    · rw [if_pos hrem]
      have hdvd : v ∣ d := Int.dvd_of_tmod_eq_zero hrem
      have hg : Nat.gcd v.natAbs d.natAbs = v.natAbs :=
        Nat.gcd_eq_left (Int.natAbs_dvd_natAbs.mpr hdvd)
      have hvG : v = (Nat.gcd N.natAbs A.natAbs : Int) := by
        rw [← h5, hg, Int.natAbs_of_nonneg (le_of_lt hvpos)]
      refine ⟨hvG, by rw [← hvG]; exact h4, ?_⟩
      intro hG1 hN2
      have hv1 : v = 1 := by rw [hvG, hG1]; norm_num
      rcases h8 with hlt | ⟨_hs2, hvN⟩
      · have hd2 : 2 ≤ d := by omega
        have hs1nn : (0 : Int) ≤ (s1.natAbs : Int) := by positivity
        have hs2nn : (0 : Int) ≤ (s2.natAbs : Int) := by positivity
        have hb1 : (s2.natAbs : Int) * d ≤ N := by
          have := h6
          rw [hv1] at this
          linarith
        have hb2 : (s2.natAbs : Int) * 2 ≤ (s2.natAbs : Int) * d :=
          mul_le_mul_of_nonneg_left (by omega) hs2nn
        have hb3 : (s2.natAbs : Int) * 2 ≤ N := le_trans hb2 hb1
        constructor <;> omega
      · omega
    · rw [if_neg hrem]
      have hq : 0 ≤ d.tdiv v := by
        rw [htdiv]
        exact Int.ediv_nonneg hd (le_of_lt hvpos)
      have hid : v * d.tdiv v + d.tmod v = d := by
        rw [htdiv, htmod]
        exact Int.ediv_add_emod d v
      obtain ⟨habs, hsign⟩ := bezout_sign_step s1 s2 (d.tdiv v) hq h7
      have hcong : (s1 - d.tdiv v * s2) * A ≡ d.tmod v [ZMOD N] := by
        have h := h3.sub (Int.ModEq.mul_left (d.tdiv v) h4)
        have e1 : (s1 - d.tdiv v * s2) * A = s1 * A - d.tdiv v * (s2 * A) := by ring
        have e2 : d - d.tdiv v * v = d.tmod v := by linarith
        rw [e1, ← e2]
        exact h
      have hgcd : Nat.gcd (d.tmod v).natAbs v.natAbs = Nat.gcd N.natAbs A.natAbs := by
        rw [← h5]
        have hremNat : (d.tmod v).natAbs = d.natAbs % v.natAbs := by
          have hcast : ((d.tmod v).natAbs : Int) = ((d.natAbs % v.natAbs : Nat) : Int) := by
            push_cast
            rw [abs_of_nonneg hd, abs_of_nonneg (le_of_lt hvpos), ← htmod,
              abs_of_nonneg hremnn]
          exact_mod_cast hcast
        rw [hremNat]
        exact (Nat.gcd_rec v.natAbs d.natAbs).symm
      have hbound : ((s2.natAbs : Int)) * d.tmod v + (((s1 - d.tdiv v * s2).natAbs : Int)) * v = N := by
        rw [habs]
        calc (s2.natAbs : Int) * d.tmod v + ((s1.natAbs : Int) + d.tdiv v * (s2.natAbs : Int)) * v
            = (s1.natAbs : Int) * v + (s2.natAbs : Int) * (v * d.tdiv v + d.tmod v) := by ring
          _ = (s1.natAbs : Int) * v + (s2.natAbs : Int) * d := by rw [hid]
          _ = N := h6
      exact ih v (d.tmod v) s2 (s1 - d.tdiv v * s2) (le_of_lt hvpos) (by omega)
        (by omega) h4 hcong hgcd hbound hsign (Or.inl hremlt)

/-- Gcd with a fixed modulus is invariant under congruence modulo it. -/
theorem gcd_modEq_invariant {N x y : Int} (h : x ≡ y [ZMOD N]) :
    Int.gcd N x = Int.gcd N y := by
  apply Nat.dvd_antisymm
  · rw [← Int.natCast_dvd_natCast]
    apply Int.dvd_gcd Int.gcd_dvd_left
    obtain ⟨t, ht⟩ := Int.modEq_iff_add_fac.mp h
    rw [ht]
    exact dvd_add Int.gcd_dvd_right (Dvd.dvd.mul_right Int.gcd_dvd_left t)
  · rw [← Int.natCast_dvd_natCast]
    apply Int.dvd_gcd Int.gcd_dvd_left
    obtain ⟨t, ht⟩ := Int.modEq_iff_add_fac.mp h.symm
    rw [ht]
    exact dvd_add Int.gcd_dvd_right (Dvd.dvd.mul_right Int.gcd_dvd_left t)

/-- Full specification of the embedded `inverseMod`, proved from the loop
invariant; shared by the claims about `inverseMod` and the verifier. -/
theorem inverseMod_spec (a n : Int) (h1 : 1 < (n.natAbs : Int)) :
    (Int.gcd a n = 1 →
      ∃ s, inverseMod a n = Except.ok s ∧ 0 ≤ s ∧ s < (n.natAbs : Int) ∧
        a * s ≡ 1 [ZMOD n]) ∧
    (Int.gcd a n ≠ 1 →
      inverseMod a n = Except.error "a and n is not relatively prime") := by
  unfold inverseMod
  dsimp only
  set N := if n < 0 then n * (-1) else n with hNdef
  have hNeq : N = (n.natAbs : Int) := by
    rw [hNdef]
    split_ifs <;> omega
  have hNpos : 1 < N := by omega
  set A := if a < 0 then euclideanMod a N else a with hAdef
  have hA0 : 0 ≤ A := by
    rw [hAdef]
    split_ifs with h
    · exact euclideanMod_nonneg a (by omega)
    · omega
  have hAcong : A ≡ a [ZMOD N] := by
    rw [hAdef]
    split_ifs with h
    · rw [euclideanMod_eq_emod a (by omega : (0:Int) < N)]
      exact Int.emod_emod_of_dvd a dvd_rfl ▸ Int.mod_modEq a N
    · exact Int.ModEq.refl a
  have hgcdNA : Nat.gcd N.natAbs A.natAbs = Int.gcd a n := by
    have e1 : Int.gcd N A = Int.gcd N a := gcd_modEq_invariant hAcong
    have e2 : N.natAbs.gcd a.natAbs = n.natAbs.gcd a.natAbs := by
      congr 1
      omega
    calc Nat.gcd N.natAbs A.natAbs = Int.gcd N A := rfl
      _ = Int.gcd N a := e1
      _ = n.natAbs.gcd a.natAbs := e2
      _ = Int.gcd a n := Nat.gcd_comm _ _
  obtain ⟨hg1, hg2, hg3⟩ := egcdLoop_invariant A N hA0 (by omega) (N.toNat + 1) A N 1 0
    hA0 (by omega) (by omega)
    (by rw [one_mul])
    (by rw [zero_mul]; exact Int.modEq_iff_dvd.mpr (by simp))
    rfl
    (by norm_num)
    (by norm_num)
    (Or.inr ⟨rfl, rfl⟩)
  have hNn : ∀ x y : Int, x ≡ y [ZMOD N] → x ≡ y [ZMOD n] := by
    intro x y hxy
    rcases le_or_lt 0 n with hn0 | hn0
    · have e : N = n := by omega
      rwa [e] at hxy
    · have e : N = -n := by omega
      rw [e] at hxy
      exact Int.modEq_neg.mp hxy
  constructor
  · intro hone
    have hG1 : Nat.gcd N.natAbs A.natAbs = 1 := hgcdNA.trans hone
    have hpair1 : (egcdLoop (N.toNat + 1) A N 1 0).1 = 1 := by
      rw [hg1, hG1]
      norm_num
    rw [if_neg (by simp [hpair1])]
    have hb := hg3 hG1 (by omega)
    have hcong2 : (egcdLoop (N.toNat + 1) A N 1 0).2 * A ≡ 1 [ZMOD N] := by
      have h := hg2
      rw [hG1] at h
      exact_mod_cast h
    have hcomm : A * (egcdLoop (N.toNat + 1) A N 1 0).2 ≡ 1 [ZMOD N] := by
      rw [mul_comm]
      exact hcong2
    split_ifs with hneg
    · refine ⟨_, rfl, by omega, by omega, ?_⟩
      apply hNn
      have e : a * ((egcdLoop (N.toNat + 1) A N 1 0).2 + N) ≡
          A * (egcdLoop (N.toNat + 1) A N 1 0).2 [ZMOD N] :=
        Int.ModEq.mul hAcong.symm Int.add_modEq_right
      exact e.trans hcomm
    · refine ⟨_, rfl, by omega, by omega, ?_⟩
      apply hNn
      have e : a * (egcdLoop (N.toNat + 1) A N 1 0).2 ≡
          A * (egcdLoop (N.toNat + 1) A N 1 0).2 [ZMOD N] :=
        Int.ModEq.mul_right _ hAcong.symm
      exact e.trans hcomm
  · intro hne
    have hG : Nat.gcd N.natAbs A.natAbs ≠ 1 := by
      rw [hgcdNA]
      exact hne
    have hpair1 : ¬ (egcdLoop (N.toNat + 1) A N 1 0).1 = 1 := by
      rw [hg1]
      exact fun hc => hG (by exact_mod_cast hc)
    rw [if_pos hpair1]

/-- C6: for every integer `a` and modulus `n` with `|n| > 1`, if
`gcd(a, n) = 1` then `inverseMod` returns a value `s ∈ [0, |n|)` with
`a·s ≡ 1 (mod n)`, and if `gcd(a, n) ≠ 1` (including `a ≡ 0 mod n`) it fails
with the arithmetic error. -/
theorem C6_inverseMod_correct (a n : Int) (h1 : 1 < (n.natAbs : Int)) :
    (Int.gcd a n = 1 →
      ∃ s, inverseMod a n = Except.ok s ∧ 0 ≤ s ∧ s < (n.natAbs : Int) ∧
        a * s ≡ 1 [ZMOD n]) ∧
    (Int.gcd a n ≠ 1 →
      inverseMod a n = Except.error "a and n is not relatively prime") :=
  inverseMod_spec a n h1

/-- Witness for C6: `3⁻¹ ≡ 2 (mod 5)`, and `inverseMod 5 5` fails. -/
theorem C6_witness :
    (∃ s, inverseMod 3 5 = Except.ok s ∧ 0 ≤ s ∧ s < ((5:Int).natAbs : Int) ∧
      3 * s ≡ 1 [ZMOD 5]) ∧
    inverseMod 5 5 = Except.error "a and n is not relatively prime" :=
  ⟨(C6_inverseMod_correct 3 5 (by decide)).1 (by decide),
    (C6_inverseMod_correct 5 5 (by decide)).2 (by decide)⟩

/-- C1 (amended): when the public key passes the on-curve and subgroup checks
and `signature.s` has no inverse modulo the stored positive order `n`
(`gcd(s, n) ≠ 1`), `verifyECDSASignature` propagates the arithmetic error
thrown by `inverseMod` instead of returning `false`. -/
theorem C1_verify_propagates_inverseMod_error (pk : ECDSAPublicKey) (hash : List Nat)
    (sig : ECDSASignature) (hn : 0 < pk.curve.n)
    (honc : pk.curve.isOnCurve ⟨pk.x, pk.y⟩ = Except.ok true)
    (hmul : pk.curve.multiply pk.curve.n ⟨pk.x, pk.y⟩ = Except.ok none)
    (hgcd : Int.gcd sig.s pk.curve.n ≠ 1) :
    verifyECDSASignature pk hash sig =
      Except.error "a and n is not relatively prime" := by
  have hn2 : 1 < ((pk.curve.n).natAbs : Int) := by
    rcases Nat.lt_or_ge 1 (pk.curve.n).natAbs with h | h
    · exact_mod_cast h
    · exfalso
      have h1 : (pk.curve.n).natAbs = 1 := by omega
      exact hgcd (by simp [Int.gcd, h1])
  have herr := (inverseMod_spec sig.s pk.curve.n hn2).2 hgcd
  unfold verifyECDSASignature
  dsimp only
  rw [honc, hmul, herr]

/-- Witness for C1's amended claim: the toy key passes both checks and
`s = 6` shares the factor 3 with `n = 3`, so verification errors out. -/
theorem C1_witness :
    verifyECDSASignature toyKey [2] ⟨1, 6⟩ =
      Except.error "a and n is not relatively prime" :=
  C1_verify_propagates_inverseMod_error toyKey [2] ⟨1, 6⟩ (by decide) (by decide)
    (by decide) (by decide)

/-- Square-and-multiply loop invariant: with reduced accumulator and base,
the loop computes `res · x^y mod p`. -/
theorem powmodLoop_spec {p : Int} (hp : 1 < p) :
    ∀ (fuel : Nat) (y : Nat), y < 2 ^ fuel → ∀ (res x : Int),
    0 ≤ res → res < p → 0 ≤ x → x < p →
    powmodLoop fuel res x y p = (res * x ^ y) % p := by
  intro fuel
  induction fuel with
  | zero =>
    intro y hy res x h1 h2 _h3 _h4
    have hy0 : y = 0 := by omega
    subst hy0
    simp only [powmodLoop, pow_zero, mul_one]
    exact (Int.emod_eq_of_lt h1 h2).symm
  | succ f ih =>
    intro y hy res x h1 h2 h3 h4
    simp only [powmodLoop]
    by_cases hy0 : y = 0
    · rw [if_pos hy0, hy0]
      simp only [pow_zero, mul_one]
      exact (Int.emod_eq_of_lt h1 h2).symm
    · rw [if_neg hy0]
      have hyf : y / 2 < 2 ^ f := by
        have := Nat.pow_succ 2 f
        omega
      have hres' : ∀ r' : Int, r' = (if y % 2 = 1 then euclideanMod (res * x) p else res) →
          0 ≤ r' ∧ r' < p := by
        intro r' hr'
        subst hr'
        split_ifs
        · exact ⟨euclideanMod_nonneg _ (by omega), euclideanMod_lt _ (by omega)⟩
        · exact ⟨h1, h2⟩
      obtain ⟨hr1, hr2⟩ := hres' _ rfl
      rw [ih (y / 2) hyf _ (euclideanMod (x * x) p) hr1 hr2
        (euclideanMod_nonneg _ (by omega)) (euclideanMod_lt _ (by omega))]
      have hx2 : euclideanMod (x * x) p ≡ x * x [ZMOD p] := by
        rw [euclideanMod_eq_emod _ (by omega : (0:Int) < p)]
        exact Int.mod_modEq _ _
      have hstep : (if y % 2 = 1 then euclideanMod (res * x) p else res) ≡
          res * x ^ (y % 2) [ZMOD p] := by
        split_ifs with hpar
        · rw [hpar, pow_one, euclideanMod_eq_emod _ (by omega : (0:Int) < p)]
          exact Int.mod_modEq _ _
        · have : y % 2 = 0 := by omega
          rw [this, pow_zero, mul_one]
      have hcong : (if y % 2 = 1 then euclideanMod (res * x) p else res) *
          euclideanMod (x * x) p ^ (y / 2) ≡ res * x ^ y [ZMOD p] := by
        calc (if y % 2 = 1 then euclideanMod (res * x) p else res) *
            euclideanMod (x * x) p ^ (y / 2)
            ≡ res * x ^ (y % 2) * (x * x) ^ (y / 2) [ZMOD p] :=
              Int.ModEq.mul hstep (Int.ModEq.pow _ hx2)
          _ = res * x ^ (y % 2 + 2 * (y / 2)) := by
              rw [pow_add, show x * x = x ^ 2 from (sq x).symm, ← pow_mul]
              ring
          _ = res * x ^ y := by rw [Nat.mod_add_div]
      exact hcong.eq

/-- Specification of `powmod` against mathematical exponentiation. -/
theorem powmod_spec {p : Int} (hp : 1 < p) {x : Int} (hx : 0 ≤ x) (y : Int) :
    powmod x y p = x ^ y.toNat % p := by
  unfold powmod
  have hx1 : x.tmod p = x % p := Int.tmod_eq_emod hx (by omega)
  rw [hx1, powmodLoop_spec hp (y.toNat + 1) y.toNat (lt_of_lt_of_le (Nat.lt_two_pow _) (Nat.pow_le_pow_right (by omega) (by omega))) 1 (x % p)
    (by omega) (by omega) (Int.emod_nonneg x (by omega)) (Int.emod_lt_of_pos x (by omega))]
  rw [one_mul]
  exact ((Int.ModEq.pow y.toNat (Int.mod_modEq x p)).eq)

/-- Range of `powmod` results. -/
theorem powmod_range {p : Int} (hp : 1 < p) {x : Int} (hx : 0 ≤ x) (y : Int) :
    0 ≤ powmod x y p ∧ powmod x y p < p := by
  rw [powmod_spec hp hx y]
  exact ⟨Int.emod_nonneg _ (by omega), Int.emod_lt_of_pos _ (by omega)⟩

/-- Casting an integer remainder modulo `p` into `ZMod p.toNat`. -/
theorem intCast_emod_zmod {p : Int} (hp : 0 < p) (a : Int) :
    ((a % p : Int) : ZMod p.toNat) = (a : ZMod p.toNat) := by
  rw [ZMod.intCast_eq_intCast_iff']
  have hcast : ((p.toNat : Nat) : Int) = p := by omega
  rw [hcast]
  exact Int.emod_emod_of_dvd a dvd_rfl

/-- Two reduced integers with equal images in `ZMod p.toNat` are equal. -/
theorem int_eq_of_zmodCast_eq {p : Int} (hp : 0 < p) {v w : Int}
    (hv0 : 0 ≤ v) (hv : v < p) (hw0 : 0 ≤ w) (hw : w < p)
    (h : ((v : Int) : ZMod p.toNat) = (w : ZMod p.toNat)) : v = w := by
  rw [ZMod.intCast_eq_intCast_iff'] at h
  have hcast : ((p.toNat : Nat) : Int) = p := by omega
  rw [hcast, Int.emod_eq_of_lt hv0 hv, Int.emod_eq_of_lt hw0 hw] at h
  exact h

/-- The image of `powmod` in `ZMod p.toNat` is plain exponentiation. -/
theorem powmod_cast {p : Int} (hp : 1 < p) {x : Int} (hx : 0 ≤ x) (y : Int) :
    ((powmod x y p : Int) : ZMod p.toNat) = ((x : ZMod p.toNat)) ^ y.toNat := by
  rw [powmod_spec hp hx y, intCast_emod_zmod (by omega)]
  push_cast
  rfl

/-- Determination of a `powmod` value from its image in `ZMod p.toNat`. -/
theorem powmod_eq_of_cast {p : Int} (hp : 1 < p) {x v : Int} (hx : 0 ≤ x)
    (hv0 : 0 ≤ v) (hv : v < p) (y : Int)
    (h : ((x : ZMod p.toNat)) ^ y.toNat = ((v : Int) : ZMod p.toNat)) :
    powmod x y p = v := by
  apply int_eq_of_zmodCast_eq (by omega : (0:Int) < p) (powmod_range hp hx y).1
    (powmod_range hp hx y).2 hv0 hv
  rw [powmod_cast hp hx y, h]

/-- Image in `ZMod p.toNat` of an established `powmod` equation. -/
theorem cast_of_powmod_eq {p : Int} (hp : 1 < p) {x v : Int} (hx : 0 ≤ x) (y : Int)
    (h : powmod x y p = v) :
    ((x : ZMod p.toNat)) ^ y.toNat = ((v : Int) : ZMod p.toNat) := by
  rw [← h, powmod_cast hp hx y]

/-- Specification of the `q·2^s` factoring loop: it terminates with an odd
quotient and a correct power of two. -/
theorem factorQS_spec :
    ∀ (fuel : Nat) (q0 s0 : Int), 1 ≤ q0 → q0.natAbs ≤ fuel →
    ∃ q s, factorQS fuel q0 s0 = (q, s) ∧ 1 ≤ q ∧ q.tmod 2 = 1 ∧ s0 ≤ s ∧
      q * 2 ^ (s - s0).toNat = q0 := by
  intro fuel
  induction fuel with
  | zero =>
    intro q0 s0 hq hf
    exact absurd hf (by omega)
  | succ f ih =>
    intro q0 s0 hq hf
    simp only [factorQS]
    have htm : q0.tmod 2 = q0 % 2 := Int.tmod_eq_emod (by omega) (by omega)
    by_cases hev : q0.tmod 2 = 0
    · rw [if_pos hev]
      have hdvd : (2:Int) ∣ q0 := Int.dvd_of_tmod_eq_zero hev
      have htd : q0.tdiv 2 = q0 / 2 := Int.tdiv_eq_ediv (by omega) (by omega)
      have hq2 : 2 * (q0 / 2) = q0 := Int.mul_ediv_cancel' hdvd
      have hq1 : 1 ≤ q0.tdiv 2 := by omega
      have hfn : (q0.tdiv 2).natAbs ≤ f := by omega
      obtain ⟨q, s, heq, hodd1, hodd2, hs, hpow⟩ := ih (q0.tdiv 2) (s0 + 1) hq1 hfn
      refine ⟨q, s, heq, hodd1, hodd2, by omega, ?_⟩
      have he : (s - s0).toNat = (s - (s0 + 1)).toNat + 1 := by omega
      rw [he, pow_succ, ← mul_assoc, hpow]
      omega
    · rw [if_neg hev]
      refine ⟨q0, s0, rfl, hq, by omega, le_refl s0, by norm_num⟩

/-- Specification of the non-residue search: when some value in range
satisfies the test, the search succeeds and its result satisfies the test. -/
theorem zSearch_spec :
    ∀ (fuel : Nat) (z0 p : Int),
    (∃ w : Int, z0 ≤ w ∧ w < z0 + fuel ∧ powmod w ((p - 1).tdiv 2) p = p - 1) →
    ∃ z, zSearch fuel z0 p = Except.ok z ∧ z0 ≤ z ∧
      powmod z ((p - 1).tdiv 2) p = p - 1 := by
  intro fuel
  induction fuel with
  | zero =>
    intro z0 p ⟨w, hw1, hw2, _hw3⟩
    exact absurd hw2 (by omega)
  | succ f ih =>
    intro z0 p hex
    simp only [zSearch]
    by_cases hz : powmod z0 ((p - 1).tdiv 2) p = p - 1
    · rw [if_neg (by simpa using hz)]
      exact ⟨z0, rfl, le_refl z0, hz⟩
    · rw [if_pos (by simpa using hz)]
      obtain ⟨w, hw1, hw2, hw3⟩ := hex
      have hw1' : z0 + 1 ≤ w := by
        rcases eq_or_lt_of_le hw1 with rfl | h
        · exact absurd hw3 hz
        · omega
      obtain ⟨z, hzeq, hz1, hz2⟩ := ih (z0 + 1) p ⟨w, hw1', by omega, hw3⟩
      exact ⟨z, hzeq, by omega, hz2⟩

/-- Specification of the inner exponent search of the Tonelli–Shanks loop:
starting from index `i0` with no hit below `i0` and a hit strictly below `m`,
the search returns the least hit, which lies in `[i0, m)`. -/
theorem iSearch_go (t p m : Int) :
    ∀ (fuel : Nat) (i0 : Int), 1 ≤ i0 → i0 ≤ m →
    (m.toNat + 1) - i0.toNat ≤ fuel →
    (∃ j : Int, i0 ≤ j ∧ j < m ∧ powmod t ((2:Int) ^ j.toNat) p = 1) →
    (∀ j : Int, 1 ≤ j → j < i0 → powmod t ((2:Int) ^ j.toNat) p ≠ 1) →
    ∃ i, iSearch fuel i0 m t p = Except.ok i ∧ i0 ≤ i ∧ i < m ∧
      powmod t ((2:Int) ^ i.toNat) p = 1 ∧
      ∀ j : Int, 1 ≤ j → j < i → powmod t ((2:Int) ^ j.toNat) p ≠ 1 := by
  intro fuel
  induction fuel with
  | zero =>
    intro i0 h1 h2 hf _hex _hmin
    exfalso
    omega
  | succ f ih =>
    intro i0 h1 h2 hf hex hmin
    simp only [iSearch]
    rw [if_pos h2]
    by_cases him : i0 = m
    · exfalso
      obtain ⟨j, hj1, hj2, _⟩ := hex
      omega
    · rw [if_neg him]
      by_cases hhit : powmod t ((2:Int) ^ i0.toNat) p = 1
      · rw [if_pos hhit]
        exact ⟨i0, rfl, le_refl i0, by omega, hhit, hmin⟩
      · rw [if_neg hhit]
        obtain ⟨j, hj1, hj2, hj3⟩ := hex
        have hj1' : i0 + 1 ≤ j := by
          rcases eq_or_lt_of_le hj1 with rfl | h
          · exact absurd hj3 hhit
          · omega
        have hmin' : ∀ j : Int, 1 ≤ j → j < i0 + 1 → powmod t ((2:Int) ^ j.toNat) p ≠ 1 := by
          intro j' hj'1 hj'2
          rcases lt_or_le j' i0 with h | h
          · exact hmin j' hj'1 h
          · have : j' = i0 := by omega
            rw [this]
            exact hhit
        obtain ⟨i, hieq, hi1, hi2, hi3, hi4⟩ := ih (i0 + 1) (by omega) (by omega)
          (by omega) ⟨j, hj1', hj2, hj3⟩ hmin'
        exact ⟨i, hieq, by omega, hi2, hi3, hi4⟩

/-- Conversion between the embedded `(2 : Int)^k` exponents and `Nat`
exponents. -/
theorem int_two_pow_toNat (k : Nat) : ((2 : Int) ^ k).toNat = 2 ^ k := by
  have h : ((2 : Int)) ^ k = ((2 ^ k : Nat) : Int) := by push_cast; ring
  rw [h, Int.toNat_natCast]

/-- Invariant of the main Tonelli–Shanks loop: from a state satisfying
`r² = t·N`, `t^(2^(m-1)) = 1` and `c^(2^(m-1)) = -1` in `ZMod p.toNat`
(`p` an odd prime, `N` nonzero), the loop returns a reduced square root of
`N`. -/
theorem tsLoop_invariant (p : Int) (hp2 : 2 < p) (hprime : Nat.Prime p.toNat)
    (N : Int) (_hN : ((N : Int) : ZMod p.toNat) ≠ 0) :
    ∀ (fuel : Nat) (r t c m : Int),
    1 ≤ m → m.toNat < fuel →
    0 ≤ r → r < p → 0 ≤ t → t < p → 0 ≤ c → c < p →
    ((r : ZMod p.toNat)) ^ 2 = (t : ZMod p.toNat) * (N : ZMod p.toNat) →
    ((t : ZMod p.toNat)) ^ 2 ^ (m.toNat - 1) = 1 →
    ((c : ZMod p.toNat)) ^ 2 ^ (m.toNat - 1) = -1 →
    ∃ res, tsLoop fuel r t c m p = Except.ok res ∧ 0 ≤ res ∧ res < p ∧
      ((res : ZMod p.toNat)) ^ 2 = (N : ZMod p.toNat) := by
  haveI : Fact (Nat.Prime p.toNat) := ⟨hprime⟩
  intro fuel
  induction fuel with
  | zero =>
    intro r t c m hm hfuel
    exact absurd hfuel (by omega)
  | succ f ih =>
    intro r t c m hm hfuel hr0 hrp ht0 htp hc0 hcp inv1 inv2 inv3
    have hp1 : (1 : Int) < p := by omega
    simp only [tsLoop]
    by_cases ht1 : t = 1
    · rw [if_pos ht1]
      refine ⟨r, rfl, hr0, hrp, ?_⟩
      rw [ht1] at inv1
      simpa using inv1
    · rw [if_neg ht1]
      have htZ1 : ((t : Int) : ZMod p.toNat) ≠ 1 := by
        intro hc
        apply ht1
        apply int_eq_of_zmodCast_eq (by omega : (0:Int) < p) ht0 htp (by omega) (by omega)
        rw [hc]
        norm_num
      have hm2 : 2 ≤ m := by
        by_contra hcon
        have hm1 : m = 1 := by omega
        rw [hm1] at inv2
        simp at inv2
        exact htZ1 inv2
      have hexist : ∃ j : Int, 1 ≤ j ∧ j < m ∧ powmod t ((2:Int) ^ j.toNat) p = 1 := by
        refine ⟨m - 1, by omega, by omega, ?_⟩
        apply powmod_eq_of_cast hp1 ht0 (by omega) (by omega)
        rw [int_two_pow_toNat, show (m - 1).toNat = m.toNat - 1 by omega, inv2]
        norm_num
      obtain ⟨i, hieq, hi1, hi2, hcondi, hmini⟩ := iSearch_go t p m (m.toNat + 1) 1
        (le_refl 1) (by omega) (by omega) hexist
        (fun j hj1 hj2 => absurd hj1 (by omega))
      rw [hieq]
      have hI1 : 1 ≤ i.toNat := by omega
      have hIM : i.toNat < m.toNat := by omega
      have hcast_i : ((t : Int) : ZMod p.toNat) ^ 2 ^ i.toNat = 1 := by
        have h := cast_of_powmod_eq hp1 ht0 _ hcondi
        rwa [int_two_pow_toNat, Int.cast_one] at h
      have hhalf : ((t : Int) : ZMod p.toNat) ^ 2 ^ (i.toNat - 1) ≠ 1 := by
        by_cases hI : i.toNat = 1
        · rw [hI]
          simpa using htZ1
        · intro hc
          apply hmini (i - 1) (by omega) (by omega)
          apply powmod_eq_of_cast hp1 ht0 (by omega) (by omega)
          rw [int_two_pow_toNat, show (i - 1).toNat = i.toNat - 1 by omega, hc]
          norm_num
      have htneg : ((t : Int) : ZMod p.toNat) ^ 2 ^ (i.toNat - 1) = -1 := by
        have hsq : (((t : Int) : ZMod p.toNat) ^ 2 ^ (i.toNat - 1)) *
            (((t : Int) : ZMod p.toNat) ^ 2 ^ (i.toNat - 1)) = 1 := by
          have he1 : i.toNat - 1 + 1 = i.toNat := by omega
          have he2 : 2 ^ (i.toNat - 1) + 2 ^ (i.toNat - 1) = 2 ^ i.toNat := by
            calc 2 ^ (i.toNat - 1) + 2 ^ (i.toNat - 1) = 2 ^ (i.toNat - 1) * 2 := by ring
              _ = 2 ^ (i.toNat - 1 + 1) := (pow_succ 2 _).symm
              _ = 2 ^ i.toNat := by rw [he1]
          rw [← pow_add, he2]
          exact hcast_i
        rcases mul_self_eq_one_iff.mp hsq with h | h
        · exact absurd h hhalf
        · exact h
      set b := powmod c ((2:Int) ^ (m - i - 1).toNat) p with hbdef
      have hb0 : 0 ≤ b := (powmod_range hp1 hc0 _).1
      have hbp : b < p := (powmod_range hp1 hc0 _).2
      have hbZ : ((b : Int) : ZMod p.toNat) =
          ((c : Int) : ZMod p.toNat) ^ 2 ^ (m.toNat - i.toNat - 1) := by
        rw [hbdef, powmod_cast hp1 hc0, int_two_pow_toNat,
          show (m - i - 1).toNat = m.toNat - i.toNat - 1 by omega]
      have hbsq : ((powmod b 2 p : Int) : ZMod p.toNat) =
          (((b : Int) : ZMod p.toNat)) ^ 2 := by
        rw [powmod_cast hp1 hb0]
        rfl
      have hbpow : ((((b : Int) : ZMod p.toNat)) ^ 2) ^ 2 ^ (i.toNat - 1) =
          ((c : Int) : ZMod p.toNat) ^ 2 ^ (m.toNat - 1) := by
        rw [hbZ, ← pow_mul, ← pow_mul]
        congr 1
        calc 2 ^ (m.toNat - i.toNat - 1) * (2 * 2 ^ (i.toNat - 1))
            = 2 ^ (m.toNat - i.toNat - 1 + (1 + (i.toNat - 1))) := by
              rw [pow_add, pow_add, pow_one]
          _ = 2 ^ (m.toNat - 1) := by
              congr 1
              omega
      have hr'0 : 0 ≤ euclideanMod (r * b) p := euclideanMod_nonneg _ (by omega)
      have hr'p : euclideanMod (r * b) p < p := euclideanMod_lt _ (by omega)
      have ht'0 : 0 ≤ euclideanMod (t * powmod b 2 p) p := euclideanMod_nonneg _ (by omega)
      have ht'p : euclideanMod (t * powmod b 2 p) p < p := euclideanMod_lt _ (by omega)
      have hc'0 : 0 ≤ powmod b 2 p := (powmod_range hp1 hb0 _).1
      have hc'p : powmod b 2 p < p := (powmod_range hp1 hb0 _).2
      have hr'Z : ((euclideanMod (r * b) p : Int) : ZMod p.toNat) =
          ((r : Int) : ZMod p.toNat) * ((b : Int) : ZMod p.toNat) := by
        rw [euclideanMod_eq_emod _ (by omega : (0:Int) < p), intCast_emod_zmod (by omega)]
        push_cast
        rfl
      have ht'Z : ((euclideanMod (t * powmod b 2 p) p : Int) : ZMod p.toNat) =
          ((t : Int) : ZMod p.toNat) * (((b : Int) : ZMod p.toNat)) ^ 2 := by
        rw [euclideanMod_eq_emod _ (by omega : (0:Int) < p), intCast_emod_zmod (by omega)]
        push_cast
        rw [← hbsq]
      apply ih (euclideanMod (r * b) p) (euclideanMod (t * powmod b 2 p) p)
        (powmod b 2 p) i (by omega) (by omega) hr'0 hr'p ht'0 ht'p hc'0 hc'p
      · rw [hr'Z, ht'Z, mul_pow, inv1]
        ring
      · rw [ht'Z, mul_pow, htneg, hbpow, inv3]
        norm_num
      · rw [hbsq, hbpow, inv3]

/-- The integer `p` casts to zero in `ZMod p.toNat`. -/
theorem intCast_self_zmod {p : Int} (hp : 0 < p) : ((p : Int) : ZMod p.toNat) = 0 := by
  rw [show p = ((p.toNat : Nat) : Int) from by omega]
  exact_mod_cast ZMod.natCast_self p.toNat

/-- Correctness of the embedded `tonelliShanks` on nonzero squares modulo an
odd prime: `tonelliShanks (x² mod p) p` succeeds and returns one of the two
square roots `x mod p` or `p - (x mod p)`. -/
theorem tonelliShanks_sq (p x : Int) (hp2 : 2 < p) (hprime : Nat.Prime p.toNat)
    (hx : x % p ≠ 0) :
    ∃ r, tonelliShanks (euclideanMod (x ^ 2) p) p = Except.ok r ∧ 0 ≤ r ∧ r < p ∧
      (r = euclideanMod x p ∨ r = p - euclideanMod x p) := by
  haveI : Fact (Nat.Prime p.toNat) := ⟨hprime⟩
  haveI : NeZero p.toNat := ⟨by omega⟩
  have hp1 : (1 : Int) < p := by omega
  have hpn3 : 3 ≤ p.toNat := by omega
  have hoddn : p.toNat % 2 = 1 := Nat.odd_iff.mp (hprime.odd_of_ne_two (by omega))
  have hodd : p % 2 = 1 := by omega
  set X := ((x : Int) : ZMod p.toNat) with hXdef
  have hX0 : X ≠ 0 := by
    rw [hXdef]
    intro hc
    rw [ZMod.intCast_zmod_eq_zero_iff_dvd,
      show ((p.toNat : Nat) : Int) = p from by omega] at hc
    exact hx (Int.emod_eq_zero_of_dvd hc)
  set N := euclideanMod (x ^ 2) p with hNdef
  have hN0 : 0 ≤ N := euclideanMod_nonneg _ (by omega)
  have hNp : N < p := euclideanMod_lt _ (by omega)
  have hNZ : ((N : Int) : ZMod p.toNat) = X ^ 2 := by
    rw [hNdef, euclideanMod_eq_emod _ (by omega : (0:Int) < p), intCast_emod_zmod (by omega)]
    push_cast
    rfl
  have hNne : ((N : Int) : ZMod p.toNat) ≠ 0 := by
    rw [hNZ]
    exact pow_ne_zero 2 hX0
  have hferm : X ^ (p.toNat - 1) = 1 := ZMod.pow_card_sub_one_eq_one hX0
  have hroot : ∀ res : Int, 0 ≤ res → res < p →
      ((res : Int) : ZMod p.toNat) ^ 2 = ((N : Int) : ZMod p.toNat) →
      res = euclideanMod x p ∨ res = p - euclideanMod x p := by
    intro res h0 h1 h2
    rw [hNZ] at h2
    have hfac : (((res : Int) : ZMod p.toNat) - X) * (((res : Int) : ZMod p.toNat) + X) = 0 := by
      calc (((res : Int) : ZMod p.toNat) - X) * (((res : Int) : ZMod p.toNat) + X)
          = ((res : Int) : ZMod p.toNat) ^ 2 - X ^ 2 := by ring
        _ = 0 := by rw [h2]; ring
    have hxm0 : 0 ≤ euclideanMod x p := euclideanMod_nonneg _ (by omega)
    have hxm1 : euclideanMod x p < p := euclideanMod_lt _ (by omega)
    have hxmcast : ((euclideanMod x p : Int) : ZMod p.toNat) = X := by
      rw [euclideanMod_eq_emod _ (by omega : (0:Int) < p), intCast_emod_zmod (by omega), hXdef]
    rcases mul_eq_zero.mp hfac with h | h
    · left
      have hEq : ((res : Int) : ZMod p.toNat) = X := by rwa [sub_eq_zero] at h
      exact int_eq_of_zmodCast_eq (by omega : (0:Int) < p) h0 h1 hxm0 hxm1
        (by rw [hEq, hxmcast])
    · right
      have hEq : ((res : Int) : ZMod p.toNat) = -X := by
        rwa [add_eq_zero_iff_eq_neg] at h
      have hxmne : euclideanMod x p ≠ 0 := by
        rw [euclideanMod_eq_emod _ (by omega : (0:Int) < p)]
        exact hx
      have hw : ((p - euclideanMod x p : Int) : ZMod p.toNat) = -X := by
        push_cast
        rw [intCast_self_zmod (by omega : (0:Int) < p)]
        rw [show ((euclideanMod x p : Int) : ZMod p.toNat) = X from hxmcast]
        ring
      exact int_eq_of_zmodCast_eq (by omega : (0:Int) < p) h0 h1 (by omega) (by omega)
        (by rw [hEq, hw])
  by_cases hp4 : p.tmod 4 = 3
  · unfold tonelliShanks
    rw [if_pos hp4]
    refine ⟨powmod N ((p + 1).tdiv 4) p, rfl, (powmod_range hp1 hN0 _).1,
      (powmod_range hp1 hN0 _).2, ?_⟩
    apply hroot _ (powmod_range hp1 hN0 _).1 (powmod_range hp1 hN0 _).2
    have h4e : p.tmod 4 = p % 4 := Int.tmod_eq_emod (by omega) (by omega)
    have hdvd4 : (4 : Int) ∣ p + 1 := by omega
    have he4 : 4 * ((p + 1).tdiv 4) = p + 1 := by
      rw [Int.tdiv_eq_ediv (by omega) (by omega)]
      exact Int.mul_ediv_cancel' hdvd4
    have hEnat : ((p + 1).tdiv 4).toNat * 4 = p.toNat + 1 := by omega
    have hstep : ((powmod N ((p + 1).tdiv 4) p : Int) : ZMod p.toNat) ^ 2 =
        X ^ (p.toNat + 1) := by
      rw [powmod_cast hp1 hN0, ← pow_mul, hNZ, ← pow_mul]
      congr 1
      omega
    rw [hstep, hNZ, show p.toNat + 1 = (p.toNat - 1) + 2 by omega, pow_add, hferm, one_mul]
  · have h4e : p.tmod 4 = p % 4 := Int.tmod_eq_emod (by omega) (by omega)
    have hp41 : p % 4 = 1 := by omega
    unfold tonelliShanks
    rw [if_neg hp4]
    have h2dvd : (2 : Int) ∣ p - 1 := by omega
    have he2 : 2 * ((p - 1).tdiv 2) = p - 1 := by
      rw [Int.tdiv_eq_ediv (by omega) (by omega)]
      exact Int.mul_ediv_cancel' h2dvd
    have heuler : powmod N ((p - 1).tdiv 2) p = 1 := by
      apply powmod_eq_of_cast hp1 hN0 (by omega) (by omega)
      rw [hNZ, ← pow_mul, show 2 * ((p - 1).tdiv 2).toNat = p.toNat - 1 by omega, hferm]
      norm_num
    rw [if_neg (by rw [heuler]; omega)]
    dsimp only
    obtain ⟨q, s, hqs_eq, hq1, hqodd, hs0, hqpow⟩ :=
      factorQS_spec (p - 1).toNat (p - 1) 0 (by omega) (by omega)
    rw [hqs_eq]
    rw [sub_zero] at hqpow
    have hqe : q % 2 = 1 := by
      rw [← Int.tmod_eq_emod (by omega) (by omega)]
      exact hqodd
    have hs2 : 2 ≤ s := by
      by_contra hcon
      push_neg at hcon
      rcases (by omega : s = 0 ∨ s = 1) with rfl | rfl
      · norm_num at hqpow
        omega
      · norm_num at hqpow
        omega
    have hQnat : q.toNat * 2 ^ s.toNat = p.toNat - 1 := by
      have hcast : ((q.toNat * 2 ^ s.toNat : Nat) : Int) = ((p.toNat - 1 : Nat) : Int) := by
        push_cast [Int.toNat_of_nonneg (by omega : (0:Int) ≤ q)]
        omega
      exact_mod_cast hcast
    obtain ⟨a, hans⟩ := FiniteField.exists_nonsquare (F := ZMod p.toNat)
      (by rw [ZMod.ringChar_zmod_n]; omega)
    have ha0 : a ≠ 0 := fun hz => hans (hz ▸ ⟨0, by ring⟩)
    have ha1 : a ≠ 1 := fun hz => hans (hz ▸ ⟨1, by ring⟩)
    have haneg : a ^ (p.toNat / 2) = -1 := by
      have hdich := FiniteField.pow_dichotomy (F := ZMod p.toNat)
        (by rw [ZMod.ringChar_zmod_n]; omega) ha0
      rw [ZMod.card] at hdich
      rcases hdich with h | h
      · exfalso
        apply hans
        rw [FiniteField.isSquare_iff (by rw [ZMod.ringChar_zmod_n]; omega) ha0, ZMod.card]
        exact h
      · exact h
    have hval_lt : a.val < p.toNat := ZMod.val_lt a
    have hval0 : a.val ≠ 0 := fun hz => ha0 ((ZMod.val_eq_zero a).mp hz)
    have hvcast : ((a.val : Nat) : ZMod p.toNat) = a := ZMod.natCast_rightInverse a
    have hval1 : a.val ≠ 1 := by
      intro hz
      apply ha1
      rw [← hvcast, hz]
      norm_num
    have hEhalf : ((p - 1).tdiv 2).toNat = p.toNat / 2 := by omega
    have hpm1cast : ((p - 1 : Int) : ZMod p.toNat) = -1 := by
      push_cast
      rw [intCast_self_zmod (by omega : (0:Int) < p)]
      ring
    have hwcond : powmod ((a.val : Int)) ((p - 1).tdiv 2) p = p - 1 := by
      apply powmod_eq_of_cast hp1 (by positivity) (by omega) (by omega)
      have h1 : (((a.val : Int)) : ZMod p.toNat) = a := by
        push_cast
        exact hvcast
      rw [h1, hEhalf, hpm1cast, haneg]
    obtain ⟨z, hzeq, hz2le, hzcond⟩ := zSearch_spec p.toNat 2 p
      ⟨(a.val : Int), by omega, by omega, hwcond⟩
    rw [hzeq]
    have hz0 : (0 : Int) ≤ z := by omega
    have hzZ : ((z : Int) : ZMod p.toNat) ^ (p.toNat / 2) = -1 := by
      have h := cast_of_powmod_eq hp1 hz0 _ hzcond
      rwa [hEhalf, hpm1cast] at h
    have hq2dvd : (2 : Int) ∣ q + 1 := by omega
    have heq2 : 2 * ((q + 1).tdiv 2) = q + 1 := by
      rw [Int.tdiv_eq_ediv (by omega) (by omega)]
      exact Int.mul_ediv_cancel' hq2dvd
    have hS1 : 1 ≤ s.toNat := by omega
    have hSS : 2 ^ s.toNat = 2 ^ (s.toNat - 1) * 2 := by
      rw [← pow_succ]
      congr 1
      omega
    have hA2 : q.toNat * 2 ^ (s.toNat - 1) * 2 = p.toNat - 1 := by
      rw [mul_assoc, ← hSS]
      exact hQnat
    have hAhalf : q.toNat * 2 ^ (s.toNat - 1) = p.toNat / 2 := by omega
    obtain ⟨res, hres_eq, hres0, hresp, hressq⟩ := tsLoop_invariant p hp2 hprime N hNne
      (s.toNat + 2) (powmod N ((q + 1).tdiv 2) p) (powmod N q p) (powmod z q p) s
      (by omega) (by omega)
      (powmod_range hp1 hN0 _).1 (powmod_range hp1 hN0 _).2
      (powmod_range hp1 hN0 _).1 (powmod_range hp1 hN0 _).2
      (powmod_range hp1 hz0 _).1 (powmod_range hp1 hz0 _).2
      (by
        rw [powmod_cast hp1 hN0, powmod_cast hp1 hN0, ← pow_mul, ← pow_succ]
        congr 1
        omega)
      (by
        rw [powmod_cast hp1 hN0, ← pow_mul, hNZ, ← pow_mul,
          show 2 * (q.toNat * 2 ^ (s.toNat - 1)) = p.toNat - 1 by omega, hferm])
      (by
        rw [powmod_cast hp1 hz0, ← pow_mul, hAhalf, hzZ])
    exact ⟨res, hres_eq, hres0, hresp, hroot res hres0 hresp hressq⟩

/-- C4: (amended) For every odd prime p and every integer x with x not
divisible by p, `tonelliShanks (x² mod p) p` returns a value r with
r ∈ \x7bx mod p, p − (x mod p)\x7d.  The original claim, quantified over all x with
x² mod p a quadratic residue, is refuted by `C4_counterexample`: for x ≡ 0
(mod p) with p ≡ 1 (mod 4), the input 0 is a residue (0² ≡ 0) yet the
function throws "Cannot find square root", because the Euler-criterion gate
computes 0^((p−1)/2) = 0 ≠ 1 and rejects. -/
theorem C4_tonelliShanks_sqrt (p x : Int) (hp2 : 2 < p) (hprime : Nat.Prime p.toNat)
    (hx : x % p ≠ 0) :
    ∃ r, tonelliShanks (euclideanMod (x ^ 2) p) p = Except.ok r ∧
      (r = euclideanMod x p ∨ r = p - euclideanMod x p) := by
  obtain ⟨r, h1, _, _, h4⟩ := tonelliShanks_sq p x hp2 hprime hx
  exact ⟨r, h1, h4⟩

/-- Witness for C4 at p = 13, x = 2. -/
theorem C4_witness :
    (2 : Int) < 13 ∧ (2 : Int) % 13 ≠ 0 ∧
    ∃ r, tonelliShanks (euclideanMod ((2 : Int) ^ 2) 13) 13 = Except.ok r ∧
      (r = euclideanMod 2 13 ∨ r = 13 - euclideanMod 2 13) :=
  ⟨by decide, by decide, C4_tonelliShanks_sqrt 13 2 (by decide) (by decide) (by decide)⟩

/-- Counterexample to the original C4: with p = 5 (an odd prime, ≡ 1 mod 4)
and x = 5, the value x² mod p = 0 is a quadratic residue (0² ≡ 0 mod 5), yet
`tonelliShanks` throws instead of returning a root. -/
theorem C4_counterexample :
    tonelliShanks (euclideanMod ((5 : Int) ^ 2) 5) 5 = Except.error "Cannot find square root" ∧
    euclideanMod ((0 : Int) ^ 2) 5 = euclideanMod ((5 : Int) ^ 2) 5 := by
  constructor
  · rfl
  · rfl

/-- Folding the big-endian accumulator from `acc` instead of 0 scales by
`256 ^ length`. -/
theorem byteFold_acc (bytes : List Nat) : ∀ acc : Nat,
    bytes.foldl (fun acc b => acc * 256 + b) acc =
      acc * 256 ^ bytes.length + bytes.foldl (fun acc b => acc * 256 + b) 0 := by
  induction bytes with
  | nil => intro acc; simp
  | cons b bs ih =>
    intro acc
    simp only [List.foldl_cons, List.length_cons]
    rw [ih (acc * 256 + b), ih (0 * 256 + b)]
    ring

/-- `natToBytesBE` always produces exactly `len` bytes. -/
theorem natToBytesBE_length (len : Nat) : ∀ x : Nat, (natToBytesBE len x).length = len := by
  induction len with
  | zero => intro x; rfl
  | succ n ih => intro x; simp [natToBytesBE, ih]

/-- Big-endian decoding inverts `natToBytesBE` for values that fit. -/
theorem byteFold_natToBytesBE (len : Nat) : ∀ x : Nat, x < 256 ^ len →
    (natToBytesBE len x).foldl (fun acc b => acc * 256 + b) 0 = x := by
  induction len with
  | zero =>
    intro x h
    simp only [pow_zero, Nat.lt_one_iff] at h
    subst h
    rfl
  | succ n ih =>
    intro x h
    rw [natToBytesBE, List.foldl_append,
      ih (x / 256) ((Nat.div_lt_iff_lt_mul (by norm_num)).mpr (by rw [pow_succ] at h; exact h))]
    simp only [List.foldl_cons, List.foldl_nil]
    omega

/-- `bigIntFromBytes` inverts the fixed-width big-endian encoding of a
nonnegative integer that fits in `len` bytes. -/
theorem bigIntFromBytes_natToBytesBE (len : Nat) (v : Int) (h0 : 0 ≤ v)
    (h1 : v < (256 : Int) ^ len) :
    bigIntFromBytes (natToBytesBE len v.toNat) = v := by
  have hcast : ((256 ^ len : Nat) : Int) = (256 : Int) ^ len := by push_cast; rfl
  unfold bigIntFromBytes
  rw [byteFold_natToBytesBE len v.toNat (by omega)]
  exact_mod_cast Int.toNat_of_nonneg h0

/-- Uncompressed SEC1 round-trip: a public key whose coordinates fit in
`curve.size` bytes encodes without error and decodes back to itself. -/
theorem encodeUncompressed_roundtrip (pk : ECDSAPublicKey)
    (hx0 : 0 ≤ pk.x) (hx1 : pk.x < (256 : Int) ^ pk.curve.size)
    (hy0 : 0 ≤ pk.y) (hy1 : pk.y < (256 : Int) ^ pk.curve.size) :
    ∃ enc, pk.encodeSEC1Uncompressed = Except.ok enc ∧
      decodeSEC1PublicKey pk.curve enc = Except.ok pk := by
  have henc : pk.encodeSEC1Uncompressed = Except.ok
      (4 :: (natToBytesBE pk.curve.size pk.x.toNat ++ natToBytesBE pk.curve.size pk.y.toNat)) := by
    unfold ECDSAPublicKey.encodeSEC1Uncompressed
    rw [if_neg]
    push_neg
    exact ⟨hx0, hx1, hy0, hy1⟩
  refine ⟨_, henc, ?_⟩
  have hAl : (natToBytesBE pk.curve.size pk.x.toNat).length = pk.curve.size :=
    natToBytesBE_length _ _
  have hBl : (natToBytesBE pk.curve.size pk.y.toNat).length = pk.curve.size :=
    natToBytesBE_length _ _
  unfold decodeSEC1PublicKey
  rw [if_neg (by simp), if_pos (by simp),
    if_neg (show ¬(4 :: (natToBytesBE pk.curve.size pk.x.toNat ++
      natToBytesBE pk.curve.size pk.y.toNat)).length ≠ pk.curve.size * 2 + 1 by
        simp [hAl, hBl]; omega)]
  have hdrop1 : (4 :: (natToBytesBE pk.curve.size pk.x.toNat ++
      natToBytesBE pk.curve.size pk.y.toNat)).drop 1 =
      natToBytesBE pk.curve.size pk.x.toNat ++ natToBytesBE pk.curve.size pk.y.toNat := rfl
  have hdropS : (4 :: (natToBytesBE pk.curve.size pk.x.toNat ++
      natToBytesBE pk.curve.size pk.y.toNat)).drop (pk.curve.size + 1) =
      natToBytesBE pk.curve.size pk.y.toNat := by
    rw [show pk.curve.size + 1 = 1 + pk.curve.size by omega, ← List.drop_drop, hdrop1]
    exact List.drop_left' hAl
  rw [hdrop1, hdropS, List.take_left' hAl,
    bigIntFromBytes_natToBytesBE _ _ hx0 hx1, bigIntFromBytes_natToBytesBE _ _ hy0 hy1]

/-- Every registry curve's modulus fits strictly below `256 ^ size`. -/
theorem registry_p_lt (c : ECDSANamedCurve) (hc : c ∈ registryCurves) :
    c.p < (256 : Int) ^ c.size := by
  fin_cases hc <;> decide

/-- Uncompressed half of the SEC1 round-trip for every registry curve and
every public key with coordinates in `[0, p)`. -/
theorem registry_uncompressed_roundtrip (c : ECDSANamedCurve) (hc : c ∈ registryCurves)
    (pk : ECDSAPublicKey) (hcurve : pk.curve = c)
    (hx0 : 0 ≤ pk.x) (hx1 : pk.x < c.p) (hy0 : 0 ≤ pk.y) (hy1 : pk.y < c.p) :
    ∃ enc, pk.encodeSEC1Uncompressed = Except.ok enc ∧
      decodeSEC1PublicKey c enc = Except.ok pk := by
  subst hcurve
  exact encodeUncompressed_roundtrip pk hx0 (lt_trans hx1 (registry_p_lt _ hc))
    hy0 (lt_trans hy1 (registry_p_lt _ hc))
